import Mathlib

/-!
Magpie.Core: the TensorRT inference backend.

A shallow embedding of `src/Magpie.Core/TensorRTInferenceBackend.cpp`.

* Machine integers are `Int`/`Nat` with explicit 32-bit wrap-around
  (`wrapLong` for `LONG`/`int`, `toUInt32` for `UINT`/`uint32_t`).
* Every call into CUDA, Direct3D 11 or ONNX Runtime is an external call.  Its
  outcome is read from an environment record (`InitEnv`, `EvalEnv`); the call
  itself is appended to a trace, in program order.
* Handles are modelled by the description of the object they refer to, `none`
  being the null handle.
* Logging is omitted.
-/

namespace Magpie.Core

/-! ## Machine arithmetic -/

/-- The value of a mathematical integer stored in a 32-bit signed `LONG`/`int`. -/
def wrapLong (z : Int) : Int := (z + 2147483648) % 4294967296 - 2147483648

/-- The value of a mathematical integer stored in a 32-bit `UINT`/`uint32_t`. -/
def toUInt32 (z : Int) : Nat := (z % 4294967296).toNat

/-! ## External types -/

/-- The element types of `onnxruntime_c_api.h`. -/
inductive ONNXTensorElementDataType
  | ONNX_TENSOR_ELEMENT_DATA_TYPE_UNDEFINED
  | ONNX_TENSOR_ELEMENT_DATA_TYPE_FLOAT
  | ONNX_TENSOR_ELEMENT_DATA_TYPE_UINT8
  | ONNX_TENSOR_ELEMENT_DATA_TYPE_INT8
  | ONNX_TENSOR_ELEMENT_DATA_TYPE_UINT16
  | ONNX_TENSOR_ELEMENT_DATA_TYPE_INT16
  | ONNX_TENSOR_ELEMENT_DATA_TYPE_INT32
  | ONNX_TENSOR_ELEMENT_DATA_TYPE_INT64
  | ONNX_TENSOR_ELEMENT_DATA_TYPE_STRING
  | ONNX_TENSOR_ELEMENT_DATA_TYPE_BOOL
  | ONNX_TENSOR_ELEMENT_DATA_TYPE_FLOAT16
  | ONNX_TENSOR_ELEMENT_DATA_TYPE_DOUBLE
  | ONNX_TENSOR_ELEMENT_DATA_TYPE_UINT32
  | ONNX_TENSOR_ELEMENT_DATA_TYPE_UINT64
  | ONNX_TENSOR_ELEMENT_DATA_TYPE_COMPLEX64
  | ONNX_TENSOR_ELEMENT_DATA_TYPE_COMPLEX128
  | ONNX_TENSOR_ELEMENT_DATA_TYPE_BFLOAT16
  | ONNX_TENSOR_ELEMENT_DATA_TYPE_FLOAT8E4M3FN
  | ONNX_TENSOR_ELEMENT_DATA_TYPE_FLOAT8E4M3FNUZ
  | ONNX_TENSOR_ELEMENT_DATA_TYPE_FLOAT8E5M2
  | ONNX_TENSOR_ELEMENT_DATA_TYPE_FLOAT8E5M2FNUZ
  | ONNX_TENSOR_ELEMENT_DATA_TYPE_UINT4
  | ONNX_TENSOR_ELEMENT_DATA_TYPE_INT4
  deriving DecidableEq, Repr

/-- The pixel and element formats the backend uses. -/
inductive DXGI_FORMAT
  | DXGI_FORMAT_UNKNOWN
  | DXGI_FORMAT_R8G8B8A8_UNORM
  | DXGI_FORMAT_R16_FLOAT
  | DXGI_FORMAT_R32_FLOAT
  deriving DecidableEq, Repr

/-- Bind flag of `d3d11.h`. -/
def D3D11_BIND_SHADER_RESOURCE : Nat := 0x8

/-- Bind flag of `d3d11.h`. -/
def D3D11_BIND_UNORDERED_ACCESS : Nat := 0x80

/-- The two compute shaders, named after their bytecode arrays. -/
inductive ComputeShader
  | TextureToTensorCS
  | TensorToTextureCS
  deriving DecidableEq, Repr

/-- Width and height of a texture (`D3D11_TEXTURE2D_DESC`), the fields the backend reads. -/
structure D3D11_TEXTURE2D_DESC where
  Width : Nat
  Height : Nat
  deriving DecidableEq, Repr

/-- Windows `SIZE`: two `LONG`s. -/
structure SIZE where
  cx : Int
  cy : Int
  deriving DecidableEq, Repr

/-- A texture as created by `DirectXHelper::CreateTexture2D`. -/
structure Texture2D where
  Format : DXGI_FORMAT
  Width : Nat
  Height : Nat
  BindFlags : Nat
  deriving DecidableEq, Repr

/-- The fields of `D3D11_BUFFER_DESC` the backend sets. -/
structure D3D11_BUFFER_DESC where
  ByteWidth : Nat
  BindFlags : Nat
  deriving DecidableEq, Repr

/-- A view over a buffer: its element format, its element count and the buffer viewed. -/
structure BufferView where
  Format : DXGI_FORMAT
  NumElements : Nat
  buffer : D3D11_BUFFER_DESC
  deriving DecidableEq, Repr

/-- What can be bound to a compute shader-resource slot. -/
inductive ShaderResourceView
  | ofTexture (desc : D3D11_TEXTURE2D_DESC)
  | ofBuffer (view : BufferView)
  deriving DecidableEq, Repr

/-- What can be bound to a compute unordered-access slot. -/
inductive UnorderedAccessView
  | ofBuffer (view : BufferView)
  | ofTexture (tex : Texture2D)
  deriving DecidableEq, Repr

/-- An inference session: the declared element type of input 0 and the device it runs on. -/
structure Session where
  inputType : ONNXTensorElementDataType
  deviceId : Int
  deriving DecidableEq, Repr

/-! ## The backend -/

/-- The member fields of `TensorRTInferenceBackend` that the two methods touch. -/
structure TensorRTInferenceBackend where
  _env : Bool
  _session : Option Session
  _cudaMemInfo : Option Int
  _isFloat16 : Bool
  _d3dDC : Bool
  _inputSize : SIZE
  _inputTexSrv : Option ShaderResourceView
  _pointSampler : Bool
  _inputBufferUav : Option UnorderedAccessView
  _outputBufferSrv : Option ShaderResourceView
  _outputTexUav : Option UnorderedAccessView
  _texToTensorShader : Option ComputeShader
  _tensorToTexShader : Option ComputeShader
  _texToTensorDispatchCount : Nat × Nat
  _tensorToTexDispatchCount : Nat × Nat
  _inputBufferCuda : Option D3D11_BUFFER_DESC
  _outputBufferCuda : Option D3D11_BUFFER_DESC
  deriving DecidableEq, Repr

/-- A backend on which `Initialize` has not run: every handle null. -/
def TensorRTInferenceBackend.empty : TensorRTInferenceBackend where
  _env := false
  _session := none
  _cudaMemInfo := none
  _isFloat16 := false
  _d3dDC := false
  _inputSize := ⟨0, 0⟩
  _inputTexSrv := none
  _pointSampler := false
  _inputBufferUav := none
  _outputBufferSrv := none
  _outputTexUav := none
  _texToTensorShader := none
  _tensorToTexShader := none
  _texToTensorDispatchCount := (0, 0)
  _tensorToTexDispatchCount := (0, 0)
  _inputBufferCuda := none
  _outputBufferCuda := none

/-! ## Initialize -/

/-- How the `try` block of `Initialize` (lines 89-133) ends. -/
inductive OrtSetup
  /-- The `Ort::Env` constructor throws: `_env` is not assigned. -/
  | envThrows
  /-- Configuring the session options throws: the session constructor is not reached. -/
  | optionsThrow
  /-- The `Ort::Session` constructor throws: `_session` is not assigned. -/
  | sessionThrows
  /-- The `Ort::MemoryInfo` constructor throws: `_cudaMemInfo` is not assigned. -/
  | memoryInfoThrows
  /-- No exception. -/
  | ok
  deriving DecidableEq, Repr

/-- Outcomes of the external calls `Initialize` makes, in program order. A `Bool` is
`true` when the call succeeds; an `Option` is `none` when it fails. -/
structure InitEnv where
  /-- The device id found by `cudaD3D11GetDevice`. -/
  getDevice : Option Int
  /-- The value read by `cudaDeviceGetAttribute(cudaDevAttrComputeCapabilityMajor)`. -/
  major : Option Int
  /-- The value read by `cudaDeviceGetAttribute(cudaDevAttrComputeCapabilityMinor)`. -/
  minor : Option Int
  setDevice : Bool
  ort : OrtSetup
  /-- The element type `model.onnx` declares for its first input tensor. -/
  inputType : ONNXTensorElementDataType
  createTexture2D : Bool
  createInputBuffer : Bool
  createOutputBuffer : Bool
  /-- Whether `descriptorStore.GetShaderResourceView(input)` yields a view. -/
  getShaderResourceView : Bool
  /-- Whether `deviceResources.GetSampler` yields a sampler. -/
  getSampler : Bool
  createInputBufferUav : Bool
  createOutputBufferSrv : Bool
  createOutputTexUav : Bool
  createTexToTensorShader : Bool
  createTensorToTexShader : Bool
  registerInputBuffer : Bool
  registerOutputBuffer : Bool
  deriving DecidableEq, Repr

/-- The external calls of `Initialize`, each recorded when it is made. -/
inductive InitEvent
  | cudaD3D11GetDevice
  | cudaDeviceGetAttributeMajor
  | cudaDeviceGetAttributeMinor
  | cudaSetDevice (deviceId : Int)
  | OrtEnv
  | OrtSession (deviceId : Int)
  | OrtMemoryInfo (deviceId : Int)
  | GetElementType
  | CreateTexture2D (format : DXGI_FORMAT) (width height bindFlags : Nat)
  | CreateBuffer (desc : D3D11_BUFFER_DESC)
  | GetShaderResourceView
  | GetSampler
  | CreateBufferUav (format : DXGI_FORMAT) (numElements : Nat)
  | CreateBufferSrv (format : DXGI_FORMAT) (numElements : Nat)
  | CreateTextureUav
  | CreateComputeShader (shader : ComputeShader)
  | cudaGraphicsD3D11RegisterResource (desc : Option D3D11_BUFFER_DESC)
  | cudaGraphicsResourceSetMapFlags
  deriving DecidableEq, Repr

/-- True of the calls that construct part of the inference session. -/
def InitEvent.isSession : InitEvent → Bool
  | .OrtEnv => true
  | .OrtSession _ => true
  | .OrtMemoryInfo _ => true
  | _ => false

/-- True of the calls that create a GPU resource: texture, buffer, view, compute kernel
or interop registration. -/
def InitEvent.isGpuResource : InitEvent → Bool
  | .CreateTexture2D _ _ _ _ => true
  | .CreateBuffer _ => true
  | .CreateBufferUav _ _ => true
  | .CreateBufferSrv _ _ => true
  | .CreateTextureUav => true
  | .CreateComputeShader _ => true
  | .cudaGraphicsD3D11RegisterResource _ => true
  | _ => false

/-- The `return` statement through which `Initialize` leaves, by source line. -/
inductive InitExit
  /-- Line 57: `cudaD3D11GetDevice` failed. -/
  | deviceLookup
  /-- Line 67: the major-version query failed. -/
  | queryMajor
  /-- Line 73: the minor-version query failed. -/
  | queryMinor
  /-- Line 78: `major < 6`. -/
  | capability
  /-- Line 86: `cudaSetDevice` failed. -/
  | setDevice
  /-- Line 132: `Ort::Exception` caught. -/
  | ortException
  /-- Line 138: the input element type is neither half nor single precision. -/
  | elementType
  /-- Line 177: the input buffer could not be created. -/
  | inputBuffer
  /-- Line 184: the output buffer could not be created. -/
  | outputBuffer
  /-- Line 204: the input-buffer unordered-access view could not be created. -/
  | inputBufferUav
  /-- Line 220: the output-buffer shader-resource view could not be created. -/
  | outputBufferSrv
  /-- Line 231: the output-texture unordered-access view could not be created. -/
  | outputTexUav
  /-- Line 239: the texture-to-tensor shader could not be created. -/
  | texToTensorShader
  /-- Line 246: the tensor-to-texture shader could not be created. -/
  | tensorToTexShader
  /-- Line 263: registering the input buffer failed. -/
  | registerInput
  /-- Line 271: registering the output buffer failed. -/
  | registerOutput
  /-- Line 276: `return true`. -/
  | success
  deriving DecidableEq, Repr

/-- What a run of `Initialize` leaves behind. -/
structure InitResult where
  /-- The returned `bool`. -/
  ret : Bool
  exit : InitExit
  /-- The member fields at the moment of return. -/
  backend : TensorRTInferenceBackend
  /-- The texture stored through the `output` parameter; `none` when nothing or a null
  pointer was stored. -/
  output : Option Texture2D
  /-- The local `inputBuffer` at the moment of return. -/
  inputBuffer : Option D3D11_BUFFER_DESC
  /-- The local `outputBuffer` at the moment of return. -/
  outputBuffer : Option D3D11_BUFFER_DESC
  trace : List InitEvent
  deriving DecidableEq, Repr

/-- Modelled from the spec: `DirectXHelper::CreateTexture2D` (declared in
`DirectXHelper.h`, not among the sources) allocates a texture of the given format,
size and bind flags, and yields a null pointer when the device refuses. -/
def DirectXHelper.CreateTexture2D (ok : Bool) (format : DXGI_FORMAT)
    (width height bindFlags : Nat) : Option Texture2D :=
  if ok then some ⟨format, width, height, bindFlags⟩ else none

/-- Lines 163-166: the element count per channel, rounded up to an even number for a
half-precision model. -/
def pixelCount (inputSize : SIZE) (isFloat16 : Bool) : Nat :=
  let pixelCount := toUInt32 (wrapLong (inputSize.cx * inputSize.cy))
  if isFloat16 then (pixelCount + 1) % 4294967296 / 2 * 2 % 4294967296 else pixelCount

/-- Line 172: `ByteWidth` of the input buffer. -/
def inputByteWidth (inputSize : SIZE) (isFloat16 : Bool) : Nat :=
  pixelCount inputSize isFloat16 * 3 % 4294967296 * (if isFloat16 then 2 else 4) % 4294967296

/-- Line 180: `desc.ByteWidth *= 4`. -/
def outputByteWidth (inputSize : SIZE) (isFloat16 : Bool) : Nat :=
  inputByteWidth inputSize isFloat16 * 4 % 4294967296

/-- Lines 194 and 210: the element format of both buffer views. -/
def viewFormat (isFloat16 : Bool) : DXGI_FORMAT :=
  if isFloat16 then .DXGI_FORMAT_R16_FLOAT else .DXGI_FORMAT_R32_FLOAT

/-- Line 249. -/
def TEX_TO_TENSOR_BLOCK_SIZE : Nat × Nat := (16, 16)

/-- Line 250. -/
def TENSOR_TO_TEX_BLOCK_SIZE : Nat × Nat := (8, 8)

/-- Lines 252-253: `(extent + block - 1) / block`, a `LONG` extent promoted to unsigned
32-bit arithmetic by the `uint32_t` block size. -/
def dispatchCount (extent : Int) (block : Nat) : Nat :=
  toUInt32 ((toUInt32 (extent + block) : Int) - 1) / block

/-- Lines 251-254. -/
def texToTensorDispatchCount (inputSize : SIZE) : Nat × Nat :=
  (dispatchCount inputSize.cx TEX_TO_TENSOR_BLOCK_SIZE.1,
   dispatchCount inputSize.cy TEX_TO_TENSOR_BLOCK_SIZE.2)

/-- Lines 255-258: the extents are `_inputSize.cx * 2` and `_inputSize.cy * 2`, computed
in `LONG`. -/
def tensorToTexDispatchCount (inputSize : SIZE) : Nat × Nat :=
  (dispatchCount (wrapLong (inputSize.cx * 2)) TENSOR_TO_TEX_BLOCK_SIZE.1,
   dispatchCount (wrapLong (inputSize.cy * 2)) TENSOR_TO_TEX_BLOCK_SIZE.2)

/-- Lines 47-277. `b0` holds the member fields before the call. A call that fails leaves
the handle it was to fill as it was. Creating a view of a null resource fails (Direct3D 11
answers `E_INVALIDARG`), which is how a null `outputTex` is noticed at line 228. The model
file is taken to declare a first input that is a tensor, so that line 136 returns. -/
def TensorRTInferenceBackend.Initialize (env : InitEnv) (input : D3D11_TEXTURE2D_DESC)
    (b0 : TensorRTInferenceBackend) : InitResult :=
  let t1 := [InitEvent.cudaD3D11GetDevice]
  match env.getDevice with
  | none => ⟨false, .deviceLookup, b0, none, none, none, t1⟩
  | some deviceId =>
  let t2 := t1 ++ [.cudaDeviceGetAttributeMajor]
  match env.major with
  | none => ⟨false, .queryMajor, b0, none, none, none, t2⟩
  | some major =>
  let t3 := t2 ++ [.cudaDeviceGetAttributeMinor]
  match env.minor with
  | none => ⟨false, .queryMinor, b0, none, none, none, t3⟩
  | some _ =>
  if major < 6 then ⟨false, .capability, b0, none, none, none, t3⟩ else
  let t4 := t3 ++ [.cudaSetDevice deviceId]
  if !env.setDevice then ⟨false, .setDevice, b0, none, none, none, t4⟩ else
  match env.ort with
  | .envThrows => ⟨false, .ortException, b0, none, none, none, t4 ++ [.OrtEnv]⟩
  | .optionsThrow =>
    ⟨false, .ortException, { b0 with _env := true }, none, none, none, t4 ++ [.OrtEnv]⟩
  | .sessionThrows =>
    ⟨false, .ortException, { b0 with _env := true }, none, none, none,
      t4 ++ [.OrtEnv, .OrtSession deviceId]⟩
  | .memoryInfoThrows =>
    ⟨false, .ortException,
      { b0 with _env := true, _session := some ⟨env.inputType, deviceId⟩ }, none, none, none,
      t4 ++ [.OrtEnv, .OrtSession deviceId, .OrtMemoryInfo deviceId]⟩
  | .ok =>
  let b1 : TensorRTInferenceBackend :=
    { b0 with _env := true, _session := some ⟨env.inputType, deviceId⟩,
              _cudaMemInfo := some deviceId }
  let t5 := t4 ++ [.OrtEnv, .OrtSession deviceId, .OrtMemoryInfo deviceId, .GetElementType]
  let inputType := env.inputType
  if inputType ≠ .ONNX_TENSOR_ELEMENT_DATA_TYPE_FLOAT16
      ∧ inputType ≠ .ONNX_TENSOR_ELEMENT_DATA_TYPE_FLOAT then
    ⟨false, .elementType, b1, none, none, none, t5⟩ else
  let isFloat16 := decide (inputType = .ONNX_TENSOR_ELEMENT_DATA_TYPE_FLOAT16)
  let inputSize : SIZE := ⟨wrapLong input.Width, wrapLong input.Height⟩
  let b2 : TensorRTInferenceBackend :=
    { b1 with _isFloat16 := isFloat16, _d3dDC := true, _inputSize := inputSize }
  let width := toUInt32 (wrapLong (inputSize.cx * 2))
  let height := toUInt32 (wrapLong (inputSize.cy * 2))
  let bindFlags := D3D11_BIND_SHADER_RESOURCE ||| D3D11_BIND_UNORDERED_ACCESS
  let outputTex := DirectXHelper.CreateTexture2D env.createTexture2D
    .DXGI_FORMAT_R8G8B8A8_UNORM width height bindFlags
  let t6 := t5 ++ [.CreateTexture2D .DXGI_FORMAT_R8G8B8A8_UNORM width height bindFlags]
  let pixelCount := pixelCount inputSize isFloat16
  let inputDesc : D3D11_BUFFER_DESC :=
    ⟨inputByteWidth inputSize isFloat16, D3D11_BIND_UNORDERED_ACCESS⟩
  let t7 := t6 ++ [.CreateBuffer inputDesc]
  if !env.createInputBuffer then ⟨false, .inputBuffer, b2, outputTex, none, none, t7⟩ else
  let outputDesc : D3D11_BUFFER_DESC :=
    ⟨outputByteWidth inputSize isFloat16, D3D11_BIND_SHADER_RESOURCE⟩
  let t8 := t7 ++ [.CreateBuffer outputDesc]
  if !env.createOutputBuffer then
    ⟨false, .outputBuffer, b2, outputTex, some inputDesc, none, t8⟩ else
  let b3 : TensorRTInferenceBackend :=
    { b2 with
      _inputTexSrv := if env.getShaderResourceView then some (.ofTexture input) else none,
      _pointSampler := env.getSampler }
  let uavElements := pixelCount * 3 % 4294967296
  let t9 := t8 ++ [.GetShaderResourceView, .GetSampler,
    .CreateBufferUav (viewFormat isFloat16) uavElements]
  if !env.createInputBufferUav then
    ⟨false, .inputBufferUav, b3, outputTex, some inputDesc, some outputDesc, t9⟩ else
  let b4 : TensorRTInferenceBackend :=
    { b3 with _inputBufferUav := some (.ofBuffer ⟨viewFormat isFloat16, uavElements, inputDesc⟩) }
  let srvElements := pixelCount * 4 % 4294967296 * 3 % 4294967296
  let t10 := t9 ++ [.CreateBufferSrv (viewFormat isFloat16) srvElements]
  if !env.createOutputBufferSrv then
    ⟨false, .outputBufferSrv, b4, outputTex, some inputDesc, some outputDesc, t10⟩ else
  let b5 : TensorRTInferenceBackend :=
    { b4 with
      _outputBufferSrv := some (.ofBuffer ⟨viewFormat isFloat16, srvElements, outputDesc⟩) }
  let t11 := t10 ++ [.CreateTextureUav]
  match outputTex with
  | none => ⟨false, .outputTexUav, b5, none, some inputDesc, some outputDesc, t11⟩
  | some tex =>
  if !env.createOutputTexUav then
    ⟨false, .outputTexUav, b5, some tex, some inputDesc, some outputDesc, t11⟩ else
  let b6 : TensorRTInferenceBackend := { b5 with _outputTexUav := some (.ofTexture tex) }
  let t12 := t11 ++ [.CreateComputeShader .TextureToTensorCS]
  if !env.createTexToTensorShader then
    ⟨false, .texToTensorShader, b6, some tex, some inputDesc, some outputDesc, t12⟩ else
  let b7 : TensorRTInferenceBackend := { b6 with _texToTensorShader := some .TextureToTensorCS }
  let t13 := t12 ++ [.CreateComputeShader .TensorToTextureCS]
  if !env.createTensorToTexShader then
    ⟨false, .tensorToTexShader, b7, some tex, some inputDesc, some outputDesc, t13⟩ else
  let b8 : TensorRTInferenceBackend :=
    { b7 with
      _tensorToTexShader := some .TensorToTextureCS,
      _texToTensorDispatchCount := texToTensorDispatchCount inputSize,
      _tensorToTexDispatchCount := tensorToTexDispatchCount inputSize }
  let t14 := t13 ++ [.cudaGraphicsD3D11RegisterResource (some inputDesc)]
  if !env.registerInputBuffer then
    ⟨false, .registerInput, b8, some tex, some inputDesc, some outputDesc, t14⟩ else
  let b9 : TensorRTInferenceBackend := { b8 with _inputBufferCuda := some inputDesc }
  let t15 := t14 ++ [.cudaGraphicsResourceSetMapFlags,
    .cudaGraphicsD3D11RegisterResource (some outputDesc)]
  if !env.registerOutputBuffer then
    ⟨false, .registerOutput, b9, some tex, some inputDesc, some outputDesc, t15⟩ else
  let b10 : TensorRTInferenceBackend := { b9 with _outputBufferCuda := some outputDesc }
  ⟨true, .success, b10, some tex, some inputDesc, some outputDesc,
    t15 ++ [.cudaGraphicsResourceSetMapFlags]⟩

/-! ## Evaluate -/

/-- How the `try` block of `Evaluate` (lines 312-341) ends. -/
inductive OrtRun
  /-- An exception while the binding and the two tensors are set up: `Run` is not reached. -/
  | bindThrows
  /-- The call `_session.Run` throws. -/
  | runThrows
  /-- No exception. -/
  | ok
  deriving DecidableEq, Repr

/-- Outcomes of the external calls of one `Evaluate`, in program order. -/
structure EvalEnv where
  map : Bool
  getInputPointer : Bool
  getOutputPointer : Bool
  inference : OrtRun
  unmap : Bool
  deriving DecidableEq, Repr

/-- The state outside the backend that `Evaluate` acts on: whether the two shared buffers
are mapped into CUDA, the compute stage of the device context, and how many times the
output texture has been written. -/
structure DeviceState where
  mapped : Bool
  csShaderResource : Option ShaderResourceView
  csSampler : Bool
  csUnorderedAccess : Option UnorderedAccessView
  csShader : Option ComputeShader
  outputTexWrites : Nat
  deriving DecidableEq, Repr

/-- The external calls of `Evaluate`. `Dispatch` carries the compute shader bound when it
is issued; map and unmap carry their outcome. -/
inductive EvalEvent
  | CSSetShaderResources (srv : Option ShaderResourceView)
  | CSSetSamplers
  | CSSetUnorderedAccessViews (uav : Option UnorderedAccessView)
  | CSSetShader (shader : Option ComputeShader)
  | Dispatch (shader : Option ComputeShader) (x y z : Nat)
  | cudaGraphicsMapResources (count : Nat) (ok : Bool)
  | cudaGraphicsResourceGetMappedPointer (input : Bool)
  | Run (inputShape outputShape : List Int) (elementType : ONNXTensorElementDataType)
  | cudaGraphicsUnmapResources (count : Nat) (ok : Bool)
  deriving DecidableEq, Repr

/-- The `return` through which `Evaluate` leaves, by source line. -/
inductive EvalExit
  /-- Line 294. -/
  | mapFailed
  /-- Line 302. -/
  | inputPointerFailed
  /-- Line 309. -/
  | outputPointerFailed
  /-- Line 340. -/
  | ortException
  /-- Line 347. -/
  | unmapFailed
  /-- Line 371: the end of the function. -/
  | completed
  deriving DecidableEq, Repr

/-- What a run of `Evaluate` leaves behind. -/
structure EvalResult where
  exit : EvalExit
  backend : TensorRTInferenceBackend
  device : DeviceState
  trace : List EvalEvent
  deriving DecidableEq, Repr

/-- The effect of `Dispatch` on the output texture: the tensor-to-texture shader writes
the texture bound for unordered access. -/
def DeviceState.dispatch (d : DeviceState) : DeviceState :=
  match d.csShader, d.csUnorderedAccess with
  | some .TensorToTextureCS, some (.ofTexture _) =>
    { d with outputTexWrites := d.outputTexWrites + 1 }
  | _, _ => d

/-- Lines 321 and 330. -/
def elementType (isFloat16 : Bool) : ONNXTensorElementDataType :=
  if isFloat16 then .ONNX_TENSOR_ELEMENT_DATA_TYPE_FLOAT16
  else .ONNX_TENSOR_ELEMENT_DATA_TYPE_FLOAT

/-- Lines 279-371. -/
def TensorRTInferenceBackend.Evaluate (env : EvalEnv) (b : TensorRTInferenceBackend)
    (d0 : DeviceState) : EvalResult :=
  let d1 : DeviceState :=
    { d0 with csShaderResource := b._inputTexSrv, csSampler := b._pointSampler,
              csUnorderedAccess := b._inputBufferUav, csShader := b._texToTensorShader }
  let d2 := d1.dispatch
  let t1 : List EvalEvent :=
    [.CSSetShaderResources b._inputTexSrv, .CSSetSamplers,
     .CSSetUnorderedAccessViews b._inputBufferUav, .CSSetShader b._texToTensorShader,
     .Dispatch b._texToTensorShader b._texToTensorDispatchCount.1
        b._texToTensorDispatchCount.2 1,
     .cudaGraphicsMapResources 2 env.map]
  if !env.map then ⟨.mapFailed, b, d2, t1⟩ else
  let d3 : DeviceState := { d2 with mapped := true }
  let t2 := t1 ++ [.cudaGraphicsResourceGetMappedPointer true]
  if !env.getInputPointer then ⟨.inputPointerFailed, b, d3, t2⟩ else
  let t3 := t2 ++ [.cudaGraphicsResourceGetMappedPointer false]
  if !env.getOutputPointer then ⟨.outputPointerFailed, b, d3, t3⟩ else
  let inputShape : List Int := [1, 3, b._inputSize.cy, b._inputSize.cx]
  let outputShape : List Int :=
    [1, 3, wrapLong (b._inputSize.cy * 2), wrapLong (b._inputSize.cx * 2)]
  let t4 := t3 ++ [.Run inputShape outputShape (elementType b._isFloat16)]
  match env.inference with
  | .bindThrows => ⟨.ortException, b, d3, t3⟩
  | .runThrows => ⟨.ortException, b, d3, t4⟩
  | .ok =>
  let t5 := t4 ++ [.cudaGraphicsUnmapResources 2 env.unmap]
  if !env.unmap then ⟨.unmapFailed, b, d3, t5⟩ else
  let d4 : DeviceState :=
    { d3 with mapped := false, csShaderResource := b._outputBufferSrv,
              csUnorderedAccess := b._outputTexUav, csShader := b._tensorToTexShader }
  let d5 := d4.dispatch
  let d6 : DeviceState := { d5 with csShaderResource := none, csUnorderedAccess := none }
  ⟨.completed, b, d6,
    t5 ++ [.CSSetShaderResources b._outputBufferSrv,
           .CSSetUnorderedAccessViews b._outputTexUav,
           .CSSetShader b._tensorToTexShader,
           .Dispatch b._tensorToTexShader b._tensorToTexDispatchCount.1
              b._tensorToTexDispatchCount.2 1,
           .CSSetShaderResources none,
           .CSSetUnorderedAccessViews none]⟩

/-- A run of consecutive `Evaluate` calls, one environment per frame; the traces are
concatenated. -/
def EvaluateFrames : List EvalEnv → TensorRTInferenceBackend → DeviceState →
    DeviceState × List EvalEvent
  | [], _, d => (d, [])
  | env :: envs, b, d =>
    let r := TensorRTInferenceBackend.Evaluate env b d
    let rest := EvaluateFrames envs r.backend r.device
    (rest.1, r.trace ++ rest.2)

/-- Whether a trace, started with the buffers mapped or not (`mapped`), issues a
`Dispatch` while the buffers are mapped into CUDA. -/
def dispatchedWhileMapped : Bool → List EvalEvent → Bool
  | _, [] => false
  | mapped, .Dispatch _ _ _ _ :: es => mapped || dispatchedWhileMapped mapped es
  | _, .cudaGraphicsMapResources _ true :: es => dispatchedWhileMapped true es
  | _, .cudaGraphicsUnmapResources _ true :: es => dispatchedWhileMapped false es
  | mapped, _ :: es => dispatchedWhileMapped mapped es

/-- The device before the first frame: nothing mapped, nothing bound, nothing written. -/
def DeviceState.initial : DeviceState := ⟨false, none, false, none, none, 0⟩

/-! ## Derived descriptions and sample environments -/

/-- Every call of `Initialize` succeeds, the device is capable and the model's input is
half or single precision. -/
def InitEnv.succeeds (env : InitEnv) : Bool :=
  (match env.getDevice, env.major, env.minor with
    | some _, some major, some _ => decide (6 ≤ major)
    | _, _, _ => false)
  && env.setDevice
  && decide (env.ort = .ok)
  && (decide (env.inputType = .ONNX_TENSOR_ELEMENT_DATA_TYPE_FLOAT16)
      || decide (env.inputType = .ONNX_TENSOR_ELEMENT_DATA_TYPE_FLOAT))
  && env.createTexture2D && env.createInputBuffer && env.createOutputBuffer
  && env.createInputBufferUav && env.createOutputBufferSrv && env.createOutputTexUav
  && env.createTexToTensorShader && env.createTensorToTexShader
  && env.registerInputBuffer && env.registerOutputBuffer

/-- The `_inputSize` that `Initialize` derives from the input texture (line 150). -/
def inputSizeOf (input : D3D11_TEXTURE2D_DESC) : SIZE :=
  ⟨wrapLong input.Width, wrapLong input.Height⟩

/-- The output texture that `Initialize` asks for (lines 154-160). -/
def outputTextureOf (input : D3D11_TEXTURE2D_DESC) : Texture2D :=
  ⟨.DXGI_FORMAT_R8G8B8A8_UNORM,
   toUInt32 (wrapLong ((inputSizeOf input).cx * 2)),
   toUInt32 (wrapLong ((inputSizeOf input).cy * 2)),
   D3D11_BIND_SHADER_RESOURCE ||| D3D11_BIND_UNORDERED_ACCESS⟩

/-- The member fields after an `Initialize` that returned `true`
(see `Initialize_of_ret_true`). -/
def initializedBackend (env : InitEnv) (input : D3D11_TEXTURE2D_DESC) (deviceId : Int) :
    TensorRTInferenceBackend :=
  let isFloat16 := decide (env.inputType = .ONNX_TENSOR_ELEMENT_DATA_TYPE_FLOAT16)
  let inputSize := inputSizeOf input
  let inputDesc : D3D11_BUFFER_DESC :=
    ⟨inputByteWidth inputSize isFloat16, D3D11_BIND_UNORDERED_ACCESS⟩
  let outputDesc : D3D11_BUFFER_DESC :=
    ⟨outputByteWidth inputSize isFloat16, D3D11_BIND_SHADER_RESOURCE⟩
  { _env := true
    _session := some ⟨env.inputType, deviceId⟩
    _cudaMemInfo := some deviceId
    _isFloat16 := isFloat16
    _d3dDC := true
    _inputSize := inputSize
    _inputTexSrv := if env.getShaderResourceView then some (.ofTexture input) else none
    _pointSampler := env.getSampler
    _inputBufferUav := some (.ofBuffer
      ⟨viewFormat isFloat16, pixelCount inputSize isFloat16 * 3 % 4294967296, inputDesc⟩)
    _outputBufferSrv := some (.ofBuffer
      ⟨viewFormat isFloat16,
       pixelCount inputSize isFloat16 * 4 % 4294967296 * 3 % 4294967296, outputDesc⟩)
    _outputTexUav := some (.ofTexture (outputTextureOf input))
    _texToTensorShader := some .TextureToTensorCS
    _tensorToTexShader := some .TensorToTextureCS
    _texToTensorDispatchCount := texToTensorDispatchCount inputSize
    _tensorToTexDispatchCount := tensorToTexDispatchCount inputSize
    _inputBufferCuda := some inputDesc
    _outputBufferCuda := some outputDesc }

/-- An environment in which every call succeeds, for a device of compute capability
8.6 and a model of the given input element type. -/
def InitEnv.allOk (t : ONNXTensorElementDataType) : InitEnv where
  getDevice := some 0
  major := some 8
  minor := some 6
  setDevice := true
  ort := .ok
  inputType := t
  createTexture2D := true
  createInputBuffer := true
  createOutputBuffer := true
  getShaderResourceView := true
  getSampler := true
  createInputBufferUav := true
  createOutputBufferSrv := true
  createOutputTexUav := true
  createTexToTensorShader := true
  createTensorToTexShader := true
  registerInputBuffer := true
  registerOutputBuffer := true

/-- A frame in which every call succeeds. -/
def EvalEnv.allOk : EvalEnv := ⟨true, true, true, .ok, true⟩

/-- Some call of the frame fails: the map, a mapped-pointer query, the inference run
(an exception) or the unmap. -/
def EvalEnv.fails (env : EvalEnv) : Prop :=
  env.map = false ∨ env.getInputPointer = false ∨ env.getOutputPointer = false
    ∨ env.inference ≠ .ok ∨ env.unmap = false

/-- The return statements that lie after the element-type check of line 137. -/
def InitExit.pastTypeCheck : InitExit → Bool
  | .deviceLookup | .queryMajor | .queryMinor | .capability | .setDevice
  | .ortException | .elementType => false
  | _ => true

/-- The return statements of the device gate, lines 54-87. -/
def InitExit.inDeviceGate : InitExit → Bool
  | .deviceLookup | .queryMajor | .queryMinor | .capability | .setDevice => true
  | _ => false

/-- The position of a return statement of `Initialize` in program order. -/
def InitExit.step : InitExit → Nat
  | .deviceLookup => 0
  | .queryMajor => 1
  | .queryMinor => 2
  | .capability => 3
  | .setDevice => 4
  | .ortException => 5
  | .elementType => 6
  | .inputBuffer => 7
  | .outputBuffer => 8
  | .inputBufferUav => 9
  | .outputBufferSrv => 10
  | .outputTexUav => 11
  | .texToTensorShader => 12
  | .tensorToTexShader => 13
  | .registerInput => 14
  | .registerOutput => 15
  | .success => 16

/-- The return statements that lie after the dispatch counts are stored (lines 251-258). -/
def InitExit.pastDispatchCounts : InitExit → Bool
  | .registerInput | .registerOutput | .success => true
  | _ => false

/-- A device that reports compute capability 5.2, every call succeeding. -/
def InitEnv.capability5 : InitEnv :=
  { InitEnv.allOk .ONNX_TENSOR_ELEMENT_DATA_TYPE_FLOAT16 with major := some 5, minor := some 2 }

/-- Everything succeeds but the creation of the output texture. -/
def InitEnv.textureFails : InitEnv :=
  { InitEnv.allOk .ONNX_TENSOR_ELEMENT_DATA_TYPE_FLOAT16 with createTexture2D := false }

/-- Everything succeeds but the creation of the tensor-to-texture shader. -/
def InitEnv.secondShaderFails : InitEnv :=
  { InitEnv.allOk .ONNX_TENSOR_ELEMENT_DATA_TYPE_FLOAT16 with createTensorToTexShader := false }

/-- Creation of some GPU resource fails: the output texture, a shared buffer, a view, a
compute kernel or an interop registration. -/
def InitEnv.resourceFails (env : InitEnv) : Prop :=
  env.createTexture2D = false ∨ env.createInputBuffer = false ∨ env.createOutputBuffer = false
    ∨ env.createInputBufferUav = false ∨ env.createOutputBufferSrv = false
    ∨ env.createOutputTexUav = false ∨ env.createTexToTensorShader = false
    ∨ env.createTensorToTexShader = false ∨ env.registerInputBuffer = false
    ∨ env.registerOutputBuffer = false

/-- A frame in which the buffers are mapped and `_session.Run` throws. -/
def EvalEnv.runThrows : EvalEnv := ⟨true, true, true, .runThrows, true⟩

/-- A frame in which `cudaGraphicsMapResources` fails. -/
def EvalEnv.mapFails : EvalEnv := ⟨false, true, true, .ok, true⟩

/-- A backend initialised for a 1920x1080 frame and a half-precision model. -/
def backend1080p : TensorRTInferenceBackend :=
  (TensorRTInferenceBackend.Initialize (InitEnv.allOk .ONNX_TENSOR_ELEMENT_DATA_TYPE_FLOAT16) ⟨1920, 1080⟩ .empty).backend

/-- The pixel count of a `W` by `H` frame as lines 163-166 compute it when nothing
overflows: rounded up to the next even number for a half-precision model. -/
def paddedPixelCount (W H : Nat) (isFloat16 : Bool) : Nat :=
  if isFloat16 then W * H + W * H % 2 else W * H

/-- Bytes per tensor element: 2 in half precision, 4 in single precision. -/
def elementBytes (isFloat16 : Bool) : Nat := if isFloat16 then 2 else 4

/-- The count `n` is the least number of groups of `block` pixels that cover `extent`
pixels, and its last group still holds a pixel. -/
def IsCeilDiv (n extent block : Nat) : Prop :=
  extent ≤ n * block ∧ (∀ m, extent ≤ m * block → n ≤ m) ∧ (n - 1) * block < extent

/-! ## Machine arithmetic without overflow -/

/-- A value in the range of `LONG` is stored unchanged. -/
theorem wrapLong_of_lt (z : Int) (h0 : 0 ≤ z) (h1 : z < 2147483648) : wrapLong z = z := by
  unfold wrapLong
  omega

/-- A value in the range of `uint32_t` is stored unchanged. -/
theorem toUInt32_natCast (n : Nat) (h : n < 4294967296) : toUInt32 (n : Int) = n := by
  unfold toUInt32
  omega

/-- Without overflow `dispatchCount` is the quotient `(n + b - 1) / b`. -/
theorem dispatchCount_natCast (n b : Nat) (hb : 0 < b) (h : n + b < 4294967296) :
    dispatchCount (n : Int) b = (n + b - 1) / b := by
  unfold dispatchCount
  have h1 : toUInt32 ((n : Int) + (b : Int)) = n + b := by
    unfold toUInt32
    omega
  have h2 : toUInt32 (((n + b : Nat) : Int) - 1) = n + b - 1 := by
    unfold toUInt32
    omega
  rw [h1, h2]

/-! ## Control flow of Initialize -/

/-- The value returned by `Initialize` is `true` exactly when every step succeeds. -/
theorem Initialize_ret_eq_succeeds (env : InitEnv)
    (input : D3D11_TEXTURE2D_DESC) (b0 : TensorRTInferenceBackend) :
    (TensorRTInferenceBackend.Initialize env input b0).ret = env.succeeds := by
  obtain ⟨gd, mj, mn, sd, ort, ty, ct, cib, cob, gs, gsm, ciu, cos, ctu, s1, s2, r1, r2⟩ := env
  cases gd <;> try (simp [TensorRTInferenceBackend.Initialize, InitEnv.succeeds]; done)
  cases mj <;> try (simp [TensorRTInferenceBackend.Initialize, InitEnv.succeeds]; done)
  cases mn <;> try (simp [TensorRTInferenceBackend.Initialize, InitEnv.succeeds]; done)
  rename_i deviceId major minor
  by_cases hM : major < 6
  · have h6 : ¬ (6 ≤ major) := by omega
    simp [TensorRTInferenceBackend.Initialize, InitEnv.succeeds, hM, h6]
  have h6 : 6 ≤ major := by omega
  cases sd <;> try (simp [TensorRTInferenceBackend.Initialize, InitEnv.succeeds, hM]; done)
  cases ort <;> try (simp [TensorRTInferenceBackend.Initialize, InitEnv.succeeds, hM]; done)
  by_cases hty : ty ≠ .ONNX_TENSOR_ELEMENT_DATA_TYPE_FLOAT16
      ∧ ty ≠ .ONNX_TENSOR_ELEMENT_DATA_TYPE_FLOAT
  · simp [TensorRTInferenceBackend.Initialize, InitEnv.succeeds, hM, hty]
  have hty2 : ty = .ONNX_TENSOR_ELEMENT_DATA_TYPE_FLOAT16
      ∨ ty = .ONNX_TENSOR_ELEMENT_DATA_TYPE_FLOAT := by tauto
  cases cib <;> try (simp [TensorRTInferenceBackend.Initialize, InitEnv.succeeds, hM, hty]; done)
  cases cob <;> try (simp [TensorRTInferenceBackend.Initialize, InitEnv.succeeds, hM, hty]; done)
  cases ciu <;> try (simp [TensorRTInferenceBackend.Initialize, InitEnv.succeeds, hM, hty]; done)
  cases cos <;> try (simp [TensorRTInferenceBackend.Initialize, InitEnv.succeeds, hM, hty]; done)
  cases ct <;> try (simp [TensorRTInferenceBackend.Initialize, InitEnv.succeeds, hM, hty,
    DirectXHelper.CreateTexture2D]; done)
  cases ctu <;> try (simp [TensorRTInferenceBackend.Initialize, InitEnv.succeeds, hM, hty,
    DirectXHelper.CreateTexture2D]; done)
  cases s1 <;> try (simp [TensorRTInferenceBackend.Initialize, InitEnv.succeeds, hM, hty,
    DirectXHelper.CreateTexture2D]; done)
  cases s2 <;> try (simp [TensorRTInferenceBackend.Initialize, InitEnv.succeeds, hM, hty,
    DirectXHelper.CreateTexture2D]; done)
  cases r1 <;> try (simp [TensorRTInferenceBackend.Initialize, InitEnv.succeeds, hM, hty,
    DirectXHelper.CreateTexture2D]; done)
  cases r2 <;> try (simp [TensorRTInferenceBackend.Initialize, InitEnv.succeeds, hM, hty,
    DirectXHelper.CreateTexture2D]; done)
  simp [TensorRTInferenceBackend.Initialize, InitEnv.succeeds, hM, hty,
    DirectXHelper.CreateTexture2D]
  exact ⟨h6, hty2⟩

/-- A run that returns `true` leaves through line 276, has stored the output texture and
both buffers, and has filled every member field as `initializedBackend` says. -/
theorem Initialize_of_ret_true (env : InitEnv)
    (input : D3D11_TEXTURE2D_DESC) (b0 : TensorRTInferenceBackend) :
    (TensorRTInferenceBackend.Initialize env input b0).ret = true →
    ∃ deviceId, env.getDevice = some deviceId
      ∧ (TensorRTInferenceBackend.Initialize env input b0).exit = .success
      ∧ (TensorRTInferenceBackend.Initialize env input b0).output
          = some (outputTextureOf input)
      ∧ (TensorRTInferenceBackend.Initialize env input b0).backend
          = initializedBackend env input deviceId := by
  obtain ⟨gd, mj, mn, sd, ort, ty, ct, cib, cob, gs, gsm, ciu, cos, ctu, s1, s2, r1, r2⟩ := env
  cases gd <;> try (simp [TensorRTInferenceBackend.Initialize]; done)
  cases mj <;> try (simp [TensorRTInferenceBackend.Initialize]; done)
  cases mn <;> try (simp [TensorRTInferenceBackend.Initialize]; done)
  rename_i deviceId major minor
  by_cases hM : major < 6
  · simp [TensorRTInferenceBackend.Initialize, hM]
  cases sd <;> try (simp [TensorRTInferenceBackend.Initialize, hM]; done)
  cases ort <;> try (simp [TensorRTInferenceBackend.Initialize, hM]; done)
  by_cases hty : ty ≠ .ONNX_TENSOR_ELEMENT_DATA_TYPE_FLOAT16
      ∧ ty ≠ .ONNX_TENSOR_ELEMENT_DATA_TYPE_FLOAT
  · simp [TensorRTInferenceBackend.Initialize, hM, hty]
  cases cib <;> try (simp [TensorRTInferenceBackend.Initialize, hM, hty]; done)
  cases cob <;> try (simp [TensorRTInferenceBackend.Initialize, hM, hty]; done)
  cases ciu <;> try (simp [TensorRTInferenceBackend.Initialize, hM, hty]; done)
  cases cos <;> try (simp [TensorRTInferenceBackend.Initialize, hM, hty]; done)
  cases ct <;> try (simp [TensorRTInferenceBackend.Initialize, hM, hty,
    DirectXHelper.CreateTexture2D]; done)
  cases ctu <;> try (simp [TensorRTInferenceBackend.Initialize, hM, hty,
    DirectXHelper.CreateTexture2D]; done)
  cases s1 <;> try (simp [TensorRTInferenceBackend.Initialize, hM, hty,
    DirectXHelper.CreateTexture2D]; done)
  cases s2 <;> try (simp [TensorRTInferenceBackend.Initialize, hM, hty,
    DirectXHelper.CreateTexture2D]; done)
  cases r1 <;> try (simp [TensorRTInferenceBackend.Initialize, hM, hty,
    DirectXHelper.CreateTexture2D]; done)
  cases r2 <;> try (simp [TensorRTInferenceBackend.Initialize, hM, hty,
    DirectXHelper.CreateTexture2D]; done)
  simp [TensorRTInferenceBackend.Initialize, hM, hty, DirectXHelper.CreateTexture2D,
    initializedBackend, outputTextureOf, inputSizeOf]

set_option maxHeartbeats 4000000 in
/-- What holds of a run of `Initialize` whichever way it leaves: the descriptions of the
buffers it created, the fields stored before each return statement, and the fields left
alone by a run that fails. -/
theorem Initialize_on_every_path (env : InitEnv)
    (input : D3D11_TEXTURE2D_DESC) (b0 : TensorRTInferenceBackend) :
    ∀ r, TensorRTInferenceBackend.Initialize env input b0 = r →
      (∀ d, r.inputBuffer = some d →
        d = ⟨inputByteWidth (inputSizeOf input)
              (decide (env.inputType = .ONNX_TENSOR_ELEMENT_DATA_TYPE_FLOAT16)),
             D3D11_BIND_UNORDERED_ACCESS⟩)
      ∧ (∀ d, r.outputBuffer = some d →
        d = ⟨outputByteWidth (inputSizeOf input)
              (decide (env.inputType = .ONNX_TENSOR_ELEMENT_DATA_TYPE_FLOAT16)),
             D3D11_BIND_SHADER_RESOURCE⟩)
      ∧ (r.ret = true → r.inputBuffer.isSome = true ∧ r.outputBuffer.isSome = true)
      ∧ (r.inputBuffer.isSome = true →
          env.inputType = .ONNX_TENSOR_ELEMENT_DATA_TYPE_FLOAT16
            ∨ env.inputType = .ONNX_TENSOR_ELEMENT_DATA_TYPE_FLOAT)
      ∧ (r.exit.pastDispatchCounts = true →
          r.backend._inputSize = inputSizeOf input
          ∧ r.backend._texToTensorDispatchCount
              = texToTensorDispatchCount (inputSizeOf input)
          ∧ r.backend._tensorToTexDispatchCount
              = tensorToTexDispatchCount (inputSizeOf input))
      ∧ (r.exit.inDeviceGate = true → r.backend = b0)
      ∧ (r.ret = false → r.backend._outputBufferCuda = b0._outputBufferCuda)
      ∧ (r.exit.pastTypeCheck = true →
          (env.inputType = .ONNX_TENSOR_ELEMENT_DATA_TYPE_FLOAT16
            ∨ env.inputType = .ONNX_TENSOR_ELEMENT_DATA_TYPE_FLOAT)
          ∧ r.backend._isFloat16
              = decide (env.inputType = .ONNX_TENSOR_ELEMENT_DATA_TYPE_FLOAT16))
      ∧ (r.exit = .elementType →
          r.ret = false
          ∧ ¬ (env.inputType = .ONNX_TENSOR_ELEMENT_DATA_TYPE_FLOAT16
            ∨ env.inputType = .ONNX_TENSOR_ELEMENT_DATA_TYPE_FLOAT))
      ∧ ((∃ deviceId major minor, env.getDevice = some deviceId ∧ env.major = some major
            ∧ env.minor = some minor ∧ 6 ≤ major)
          → env.setDevice = true → env.ort = .ok →
          r.exit = .elementType ∨ r.exit.pastTypeCheck = true)
      ∧ ((r.ret = false ↔ r.exit.step ≤ 15)
          ∧ (r.exit.step ≤ 5 → r.backend._cudaMemInfo = b0._cudaMemInfo)
          ∧ (r.exit.step ≤ 9 → r.backend._inputBufferUav = b0._inputBufferUav)
          ∧ (r.exit.step ≤ 10 → r.backend._outputBufferSrv = b0._outputBufferSrv)
          ∧ (r.exit.step ≤ 11 → r.backend._outputTexUav = b0._outputTexUav)
          ∧ (r.exit.step ≤ 12 → r.backend._texToTensorShader = b0._texToTensorShader)
          ∧ (r.exit.step ≤ 13 → r.backend._tensorToTexShader = b0._tensorToTexShader)
          ∧ (r.exit.step ≤ 14 → r.backend._inputBufferCuda = b0._inputBufferCuda)
          ∧ (r.exit.step ≤ 15 → r.backend._outputBufferCuda = b0._outputBufferCuda)) := by
  obtain ⟨gd, mj, mn, sd, ort, ty, ct, cib, cob, gs, gsm, ciu, cos, ctu, s1, s2, r1, r2⟩ := env
  intro r hr
  subst hr
  cases gd <;> try (simp [TensorRTInferenceBackend.Initialize, InitExit.pastTypeCheck, InitExit.step, InitExit.inDeviceGate,
    InitExit.pastDispatchCounts]; done)
  cases mj <;> try (simp [TensorRTInferenceBackend.Initialize, InitExit.pastTypeCheck, InitExit.step, InitExit.inDeviceGate,
    InitExit.pastDispatchCounts]; done)
  cases mn <;> try (simp [TensorRTInferenceBackend.Initialize, InitExit.pastTypeCheck, InitExit.step, InitExit.inDeviceGate,
    InitExit.pastDispatchCounts]; done)
  rename_i deviceId major minor
  by_cases hM : major < 6
  · simp [TensorRTInferenceBackend.Initialize, hM, InitExit.pastTypeCheck, InitExit.step, InitExit.inDeviceGate,
      InitExit.pastDispatchCounts]
  cases sd <;> try (simp [TensorRTInferenceBackend.Initialize, hM, InitExit.pastTypeCheck, InitExit.step, InitExit.inDeviceGate,
    InitExit.pastDispatchCounts]; done)
  cases ort <;> try (simp [TensorRTInferenceBackend.Initialize, hM, InitExit.pastTypeCheck, InitExit.step, InitExit.inDeviceGate,
    InitExit.pastDispatchCounts]; done)
  by_cases hty : ty ≠ .ONNX_TENSOR_ELEMENT_DATA_TYPE_FLOAT16
      ∧ ty ≠ .ONNX_TENSOR_ELEMENT_DATA_TYPE_FLOAT
  · simp [TensorRTInferenceBackend.Initialize, hM, hty, InitExit.pastTypeCheck, InitExit.step, InitExit.inDeviceGate,
      InitExit.pastDispatchCounts]
  have hty2 : ty = .ONNX_TENSOR_ELEMENT_DATA_TYPE_FLOAT16
      ∨ ty = .ONNX_TENSOR_ELEMENT_DATA_TYPE_FLOAT := by tauto
  cases cib <;> try (simp [TensorRTInferenceBackend.Initialize, hM, hty, hty2, InitExit.pastTypeCheck, InitExit.step,
    InitExit.inDeviceGate, InitExit.pastDispatchCounts, inputSizeOf]; done)
  cases cob <;> try (simp [TensorRTInferenceBackend.Initialize, hM, hty, hty2, InitExit.pastTypeCheck, InitExit.step,
    InitExit.inDeviceGate, InitExit.pastDispatchCounts, inputSizeOf]; done)
  cases ciu <;> try (simp [TensorRTInferenceBackend.Initialize, hM, hty, hty2, InitExit.pastTypeCheck, InitExit.step,
    InitExit.inDeviceGate, InitExit.pastDispatchCounts, inputSizeOf]; done)
  cases cos <;> try (simp [TensorRTInferenceBackend.Initialize, hM, hty, hty2, InitExit.pastTypeCheck, InitExit.step,
    InitExit.inDeviceGate, InitExit.pastDispatchCounts, inputSizeOf]; done)
  cases ct <;> try (simp [TensorRTInferenceBackend.Initialize, hM, hty, hty2, InitExit.pastTypeCheck, InitExit.step,
    InitExit.inDeviceGate, InitExit.pastDispatchCounts, inputSizeOf,
    DirectXHelper.CreateTexture2D]; done)
  cases ctu <;> try (simp [TensorRTInferenceBackend.Initialize, hM, hty, hty2, InitExit.pastTypeCheck, InitExit.step,
    InitExit.inDeviceGate, InitExit.pastDispatchCounts, inputSizeOf,
    DirectXHelper.CreateTexture2D]; done)
  cases s1 <;> try (simp [TensorRTInferenceBackend.Initialize, hM, hty, hty2, InitExit.pastTypeCheck, InitExit.step,
    InitExit.inDeviceGate, InitExit.pastDispatchCounts, inputSizeOf,
    DirectXHelper.CreateTexture2D]; done)
  cases s2 <;> try (simp [TensorRTInferenceBackend.Initialize, hM, hty, hty2, InitExit.pastTypeCheck, InitExit.step,
    InitExit.inDeviceGate, InitExit.pastDispatchCounts, inputSizeOf,
    DirectXHelper.CreateTexture2D]; done)
  cases r1 <;> try (simp [TensorRTInferenceBackend.Initialize, hM, hty, hty2, InitExit.pastTypeCheck, InitExit.step,
    InitExit.inDeviceGate, InitExit.pastDispatchCounts, inputSizeOf,
    DirectXHelper.CreateTexture2D]; done)
  cases r2 <;> simp [TensorRTInferenceBackend.Initialize, hM, hty, hty2, InitExit.pastTypeCheck, InitExit.step,
    InitExit.inDeviceGate, InitExit.pastDispatchCounts, inputSizeOf,
    DirectXHelper.CreateTexture2D]

set_option maxHeartbeats 4000000 in
/-- What `Initialize` has stored when it leaves: every object created by a step that lies
before the return statement is in its member field, whether the run goes on to succeed
or not. A return from the `catch` of line 130 holds what the `try` block had assigned
when the exception was thrown. -/
theorem Initialize_keeps_what_it_created (env : InitEnv)
    (input : D3D11_TEXTURE2D_DESC) (b0 : TensorRTInferenceBackend) :
    ∀ r, TensorRTInferenceBackend.Initialize env input b0 = r →
      (r.exit.step = 5 →
        (env.ort = .envThrows → r.backend = b0)
        ∧ (env.ort = .optionsThrow ∨ env.ort = .sessionThrows →
            r.backend = { b0 with _env := true })
        ∧ (env.ort = .memoryInfoThrows →
            r.backend
              = { b0 with
                  _env := true
                  _session := env.getDevice.map fun deviceId => ⟨env.inputType, deviceId⟩ })
        ∧ env.ort ≠ .ok)
      ∧ (6 ≤ r.exit.step →
        r.backend._env = true
        ∧ env.getDevice.isSome = true
        ∧ r.backend._session
            = env.getDevice.map (fun deviceId => ⟨env.inputType, deviceId⟩)
        ∧ r.backend._cudaMemInfo = env.getDevice)
      ∧ (10 ≤ r.exit.step →
        r.backend._inputBufferUav
          = some (.ofBuffer
              ⟨viewFormat (decide (env.inputType = .ONNX_TENSOR_ELEMENT_DATA_TYPE_FLOAT16)),
               pixelCount (inputSizeOf input) (decide (env.inputType = .ONNX_TENSOR_ELEMENT_DATA_TYPE_FLOAT16)) * 3 % 4294967296,
               ⟨inputByteWidth (inputSizeOf input) (decide (env.inputType = .ONNX_TENSOR_ELEMENT_DATA_TYPE_FLOAT16)),
                D3D11_BIND_UNORDERED_ACCESS⟩⟩))
      ∧ (11 ≤ r.exit.step →
        r.backend._outputBufferSrv
          = some (.ofBuffer
              ⟨viewFormat (decide (env.inputType = .ONNX_TENSOR_ELEMENT_DATA_TYPE_FLOAT16)),
               pixelCount (inputSizeOf input) (decide (env.inputType = .ONNX_TENSOR_ELEMENT_DATA_TYPE_FLOAT16))
                 * 4 % 4294967296 * 3 % 4294967296,
               ⟨outputByteWidth (inputSizeOf input) (decide (env.inputType = .ONNX_TENSOR_ELEMENT_DATA_TYPE_FLOAT16)),
                D3D11_BIND_SHADER_RESOURCE⟩⟩))
      ∧ (12 ≤ r.exit.step →
        r.backend._outputTexUav = some (.ofTexture (outputTextureOf input)))
      ∧ (13 ≤ r.exit.step →
        r.backend._texToTensorShader = some .TextureToTensorCS)
      ∧ (14 ≤ r.exit.step →
        r.backend._tensorToTexShader = some .TensorToTextureCS)
      ∧ (15 ≤ r.exit.step →
        r.backend._inputBufferCuda
          = some ⟨inputByteWidth (inputSizeOf input) (decide (env.inputType = .ONNX_TENSOR_ELEMENT_DATA_TYPE_FLOAT16)),
                D3D11_BIND_UNORDERED_ACCESS⟩) := by
  obtain ⟨gd, mj, mn, sd, ort, ty, ct, cib, cob, gs, gsm, ciu, cos, ctu, s1, s2, r1, r2⟩ := env
  intro r hr
  subst hr
  cases gd <;> try (simp [TensorRTInferenceBackend.Initialize, InitExit.step, inputSizeOf, outputTextureOf]; done)
  cases mj <;> try (simp [TensorRTInferenceBackend.Initialize, InitExit.step, inputSizeOf, outputTextureOf]; done)
  cases mn <;> try (simp [TensorRTInferenceBackend.Initialize, InitExit.step, inputSizeOf, outputTextureOf]; done)
  rename_i deviceId major minor
  by_cases hM : major < 6
  · simp [TensorRTInferenceBackend.Initialize, hM, InitExit.step, inputSizeOf, outputTextureOf]
  cases sd <;> try (simp [TensorRTInferenceBackend.Initialize, hM, InitExit.step, inputSizeOf, outputTextureOf]; done)
  cases ort <;> try (simp [TensorRTInferenceBackend.Initialize, hM, InitExit.step, inputSizeOf, outputTextureOf]; done)
  by_cases hty : ty ≠ .ONNX_TENSOR_ELEMENT_DATA_TYPE_FLOAT16
      ∧ ty ≠ .ONNX_TENSOR_ELEMENT_DATA_TYPE_FLOAT
  · simp [TensorRTInferenceBackend.Initialize, hM, hty, InitExit.step, inputSizeOf, outputTextureOf]
  cases cib <;> try (simp [TensorRTInferenceBackend.Initialize, hM, hty, InitExit.step, inputSizeOf, outputTextureOf]; done)
  cases cob <;> try (simp [TensorRTInferenceBackend.Initialize, hM, hty, InitExit.step, inputSizeOf, outputTextureOf]; done)
  cases ciu <;> try (simp [TensorRTInferenceBackend.Initialize, hM, hty, InitExit.step, inputSizeOf, outputTextureOf]; done)
  cases cos <;> try (simp [TensorRTInferenceBackend.Initialize, hM, hty, InitExit.step, inputSizeOf, outputTextureOf]; done)
  cases ct <;> try (simp [TensorRTInferenceBackend.Initialize, hM, hty, InitExit.step, inputSizeOf, outputTextureOf,
    DirectXHelper.CreateTexture2D]; done)
  cases ctu <;> try (simp [TensorRTInferenceBackend.Initialize, hM, hty, InitExit.step, inputSizeOf, outputTextureOf,
    DirectXHelper.CreateTexture2D]; done)
  cases s1 <;> try (simp [TensorRTInferenceBackend.Initialize, hM, hty, InitExit.step, inputSizeOf, outputTextureOf,
    DirectXHelper.CreateTexture2D]; done)
  cases s2 <;> try (simp [TensorRTInferenceBackend.Initialize, hM, hty, InitExit.step, inputSizeOf, outputTextureOf,
    DirectXHelper.CreateTexture2D]; done)
  cases r1 <;> try (simp [TensorRTInferenceBackend.Initialize, hM, hty, InitExit.step, inputSizeOf, outputTextureOf,
    DirectXHelper.CreateTexture2D]; done)
  cases r2 <;> simp [TensorRTInferenceBackend.Initialize, hM, hty, InitExit.step, inputSizeOf, outputTextureOf,
    DirectXHelper.CreateTexture2D]

/-! ## Sizes without overflow -/

/-- Within the declared shape range the pixel count does not overflow. -/
theorem pixelCount_in_range (W H : Nat) (f16 : Bool) (hW : W ≤ 1920) (hH : H ≤ 1080) :
    pixelCount (inputSizeOf ⟨W, H⟩) f16 = paddedPixelCount W H f16 := by
  have hP : W * H ≤ 1920 * 1080 := Nat.mul_le_mul hW hH
  have hcx : wrapLong (W : Int) = W := wrapLong_of_lt _ (by omega) (by omega)
  have hcy : wrapLong (H : Int) = H := wrapLong_of_lt _ (by omega) (by omega)
  have hprod : wrapLong (((W * H : Nat) : Int)) = ((W * H : Nat) : Int) :=
    wrapLong_of_lt _ (by omega) (by omega)
  have hu : toUInt32 (((W * H : Nat) : Int)) = W * H := toUInt32_natCast _ (by omega)
  unfold pixelCount inputSizeOf paddedPixelCount
  simp only [hcx, hcy]
  rw [← Nat.cast_mul, hprod, hu]
  cases f16
  · simp
  · simp
    omega

/-- Within the declared shape range the byte widths do not overflow. -/
theorem byteWidths_in_range (W H : Nat) (f16 : Bool) (hW : W ≤ 1920) (hH : H ≤ 1080) :
    inputByteWidth (inputSizeOf ⟨W, H⟩) f16 = paddedPixelCount W H f16 * 3 * elementBytes f16
    ∧ outputByteWidth (inputSizeOf ⟨W, H⟩) f16
        = 4 * (paddedPixelCount W H f16 * 3 * elementBytes f16) := by
  have hP : W * H ≤ 1920 * 1080 := Nat.mul_le_mul hW hH
  have hpad : paddedPixelCount W H f16 ≤ 1920 * 1080 + 1 := by
    unfold paddedPixelCount
    split <;> omega
  unfold outputByteWidth inputByteWidth
  rw [pixelCount_in_range W H f16 hW hH]
  unfold elementBytes
  cases f16 <;> simp <;> omega

/-- The requested output texture is twice the input when `LONG` does not overflow. -/
theorem outputTextureOf_size (W H : Nat) (hW : 2 * W < 2147483648) (hH : 2 * H < 2147483648) :
    (outputTextureOf ⟨W, H⟩).Width = 2 * W ∧ (outputTextureOf ⟨W, H⟩).Height = 2 * H := by
  have hcx : wrapLong (W : Int) = W := wrapLong_of_lt _ (by omega) (by omega)
  have hcy : wrapLong (H : Int) = H := wrapLong_of_lt _ (by omega) (by omega)
  have h2x : wrapLong ((W : Int) * 2) = ((2 * W : Nat) : Int) := by
    rw [wrapLong_of_lt _ (by omega) (by omega)]
    push_cast
    ring
  have h2y : wrapLong ((H : Int) * 2) = ((2 * H : Nat) : Int) := by
    rw [wrapLong_of_lt _ (by omega) (by omega)]
    push_cast
    ring
  unfold outputTextureOf inputSizeOf
  simp only [hcx, hcy, h2x, h2y]
  exact ⟨toUInt32_natCast _ (by omega), toUInt32_natCast _ (by omega)⟩

/-- The dispatch counts as quotients when `LONG` does not overflow. -/
theorem dispatchCounts_in_range (W H : Nat) (hW : 2 * W < 2147483648)
    (hH : 2 * H < 2147483648) :
    texToTensorDispatchCount (inputSizeOf ⟨W, H⟩) = ((W + 15) / 16, (H + 15) / 16)
    ∧ tensorToTexDispatchCount (inputSizeOf ⟨W, H⟩) = ((2 * W + 7) / 8, (2 * H + 7) / 8) := by
  have hcx : wrapLong (W : Int) = W := wrapLong_of_lt _ (by omega) (by omega)
  have hcy : wrapLong (H : Int) = H := wrapLong_of_lt _ (by omega) (by omega)
  have h2x : wrapLong ((W : Int) * 2) = ((2 * W : Nat) : Int) := by
    rw [wrapLong_of_lt _ (by omega) (by omega)]
    push_cast
    ring
  have h2y : wrapLong ((H : Int) * 2) = ((2 * H : Nat) : Int) := by
    rw [wrapLong_of_lt _ (by omega) (by omega)]
    push_cast
    ring
  unfold texToTensorDispatchCount tensorToTexDispatchCount inputSizeOf
    TEX_TO_TENSOR_BLOCK_SIZE TENSOR_TO_TEX_BLOCK_SIZE
  simp only [hcx, hcy, h2x, h2y]
  rw [dispatchCount_natCast W 16 (by omega) (by omega),
    dispatchCount_natCast H 16 (by omega) (by omega),
    dispatchCount_natCast (2 * W) 8 (by omega) (by omega),
    dispatchCount_natCast (2 * H) 8 (by omega) (by omega)]
  exact ⟨rfl, rfl⟩


/-! ## Control flow of Evaluate -/

/-- The method `Evaluate` assigns no member field. -/
theorem Evaluate_backend (env : EvalEnv) (b : TensorRTInferenceBackend) (d : DeviceState) :
    (TensorRTInferenceBackend.Evaluate env b d).backend = b := by
  obtain ⟨m, gi, go, inf, um⟩ := env
  cases m <;> cases gi <;> cases go <;> cases inf <;> cases um <;> rfl

/-- A frame with a failing call ends before the tensor-to-texture dispatch. -/
theorem Evaluate_of_fails (env : EvalEnv) (b : TensorRTInferenceBackend) (d : DeviceState)
    (hsh : b._texToTensorShader = some .TextureToTensorCS) (hf : env.fails) :
    (TensorRTInferenceBackend.Evaluate env b d).exit ≠ .completed
    ∧ (∀ x y z, EvalEvent.Dispatch (some .TensorToTextureCS) x y z ∉ (TensorRTInferenceBackend.Evaluate env b d).trace)
    ∧ (TensorRTInferenceBackend.Evaluate env b d).device.outputTexWrites = d.outputTexWrites := by
  obtain ⟨m, gi, go, inf, um⟩ := env
  cases m <;> cases gi <;> cases go <;> cases inf <;> cases um <;>
    simp [TensorRTInferenceBackend.Evaluate, EvalEnv.fails, DeviceState.dispatch, hsh] at hf ⊢

/-! ## The device capability gate -/

/-- C1: in every run of `Initialize` in which the device lookup and both capability
queries succeed and the major version is below 6, `Initialize` returns `false` through
line 78. Its trace then holds the three device queries only, so no session call and no
GPU resource call was made; no member field has changed, nothing was stored through
`output`, and neither buffer exists. -/
theorem Initialize_rejects_capability_below_6 (env : InitEnv)
    (input : D3D11_TEXTURE2D_DESC) (b0 : TensorRTInferenceBackend) (deviceId major minor : Int)
    (hdev : env.getDevice = some deviceId) (hmaj : env.major = some major)
    (hmin : env.minor = some minor) (hlt : major < 6) :
    (TensorRTInferenceBackend.Initialize env input b0).ret = false
    ∧ (TensorRTInferenceBackend.Initialize env input b0).exit = .capability
    ∧ (TensorRTInferenceBackend.Initialize env input b0).trace
        = [.cudaD3D11GetDevice, .cudaDeviceGetAttributeMajor, .cudaDeviceGetAttributeMinor]
    ∧ (∀ e ∈ (TensorRTInferenceBackend.Initialize env input b0).trace, e.isSession = false ∧ e.isGpuResource = false)
    ∧ (TensorRTInferenceBackend.Initialize env input b0).backend = b0
    ∧ (TensorRTInferenceBackend.Initialize env input b0).output = none
    ∧ (TensorRTInferenceBackend.Initialize env input b0).inputBuffer = none
    ∧ (TensorRTInferenceBackend.Initialize env input b0).outputBuffer = none := by
  simp [TensorRTInferenceBackend.Initialize, hdev, hmaj, hmin, hlt, InitEvent.isSession, InitEvent.isGpuResource]

/-- C1 at compute capability 5.2: the run returns `false` after the three device queries
and leaves an empty backend empty. -/
theorem Initialize_rejects_capability_below_6_witness :
    (InitEnv.capability5.getDevice = some 0 ∧ InitEnv.capability5.major = some 5
      ∧ InitEnv.capability5.minor = some 2 ∧ (5 : Int) < 6)
    ∧ (TensorRTInferenceBackend.Initialize InitEnv.capability5 ⟨1920, 1080⟩ .empty).ret = false
    ∧ (TensorRTInferenceBackend.Initialize InitEnv.capability5 ⟨1920, 1080⟩ .empty).trace
        = [.cudaD3D11GetDevice, .cudaDeviceGetAttributeMajor, .cudaDeviceGetAttributeMinor]
    ∧ (TensorRTInferenceBackend.Initialize InitEnv.capability5 ⟨1920, 1080⟩ .empty).backend = .empty :=
  have h := Initialize_rejects_capability_below_6 InitEnv.capability5 ⟨1920, 1080⟩ .empty
    0 5 2 rfl rfl rfl (by decide)
  ⟨⟨rfl, rfl, rfl, by decide⟩, h.1, h.2.2.1, h.2.2.2.2.1⟩

/-! ## Sizes of the shared buffers and of the output texture -/

/-- C2, as stated, fails: for a 1x1 frame and a half-precision model, all calls
succeeding, the input buffer has 12 bytes, not `1 * 1 * 3 * 2 = 6`, because line 165
rounds the pixel count up to 2. -/
theorem Initialize_input_buffer_1x1_half_is_12_bytes :
    ∃ d, (TensorRTInferenceBackend.Initialize (InitEnv.allOk .ONNX_TENSOR_ELEMENT_DATA_TYPE_FLOAT16) ⟨1, 1⟩ .empty).inputBuffer = some d
      ∧ d.ByteWidth = 12 ∧ d.ByteWidth ≠ 1 * 1 * 3 * 2 :=
  ⟨⟨12, D3D11_BIND_UNORDERED_ACCESS⟩, by decide, rfl, by decide⟩

/-- C2, amended: for every frame of width `W ≤ 1920` and height `H ≤ 1080`, whenever
`Initialize` creates the input buffer its byte size is exactly `P * 3 * e`, where `e` is 2
for a half-precision model and 4 for a single-precision one and `P` is `W * H`, rounded up
to the next even number when the model is half precision; whenever it creates the output
buffer, that one has exactly 4 times as many bytes. `P` is `W * H` itself when `W * H` is
even or the model is not half precision. A buffer is created only for a half- or
single-precision model, and a run that returns `true` has created both. -/
theorem Initialize_buffer_sizes (env : InitEnv) (W H : Nat) (b0 : TensorRTInferenceBackend)
    (hW : W ≤ 1920) (hH : H ≤ 1080) :
    (∀ d, (TensorRTInferenceBackend.Initialize env ⟨W, H⟩ b0).inputBuffer = some d →
      d.ByteWidth
        = paddedPixelCount W H (decide (env.inputType = .ONNX_TENSOR_ELEMENT_DATA_TYPE_FLOAT16))
          * 3 * elementBytes (decide (env.inputType = .ONNX_TENSOR_ELEMENT_DATA_TYPE_FLOAT16)))
    ∧ (∀ d, (TensorRTInferenceBackend.Initialize env ⟨W, H⟩ b0).outputBuffer = some d →
      d.ByteWidth
        = 4 * (paddedPixelCount W H (decide (env.inputType = .ONNX_TENSOR_ELEMENT_DATA_TYPE_FLOAT16))
          * 3 * elementBytes (decide (env.inputType = .ONNX_TENSOR_ELEMENT_DATA_TYPE_FLOAT16))))
    ∧ (W * H % 2 = 0 ∨ env.inputType ≠ .ONNX_TENSOR_ELEMENT_DATA_TYPE_FLOAT16 →
        paddedPixelCount W H (decide (env.inputType = .ONNX_TENSOR_ELEMENT_DATA_TYPE_FLOAT16)) = W * H)
    ∧ ((TensorRTInferenceBackend.Initialize env ⟨W, H⟩ b0).inputBuffer.isSome = true →
        env.inputType = .ONNX_TENSOR_ELEMENT_DATA_TYPE_FLOAT16 ∨ env.inputType = .ONNX_TENSOR_ELEMENT_DATA_TYPE_FLOAT)
    ∧ ((TensorRTInferenceBackend.Initialize env ⟨W, H⟩ b0).ret = true →
        (TensorRTInferenceBackend.Initialize env ⟨W, H⟩ b0).inputBuffer.isSome = true
        ∧ (TensorRTInferenceBackend.Initialize env ⟨W, H⟩ b0).outputBuffer.isSome = true) := by
  obtain ⟨hin, hout, hsome, hty, -⟩ := Initialize_on_every_path env ⟨W, H⟩ b0 _ rfl
  have hbw := byteWidths_in_range W H (decide (env.inputType = .ONNX_TENSOR_ELEMENT_DATA_TYPE_FLOAT16)) hW hH
  refine ⟨?_, ?_, ?_, hty, hsome⟩
  · intro d hd
    rw [hin d hd]
    exact hbw.1
  · intro d hd
    rw [hout d hd]
    exact hbw.2
  · intro h
    unfold paddedPixelCount
    rcases h with h | h
    · split <;> omega
    · simp [h]

/-- C2, amended, at 1920x1080 in half precision: the input buffer has
`1920 * 1080 * 3 * 2` bytes and the output buffer 4 times that. -/
theorem Initialize_buffer_sizes_witness :
    (1920 ≤ 1920 ∧ 1080 ≤ 1080)
    ∧ (TensorRTInferenceBackend.Initialize (InitEnv.allOk .ONNX_TENSOR_ELEMENT_DATA_TYPE_FLOAT16) ⟨1920, 1080⟩ .empty).inputBuffer = some ⟨1920 * 1080 * 3 * 2, D3D11_BIND_UNORDERED_ACCESS⟩
    ∧ ∀ d, (TensorRTInferenceBackend.Initialize (InitEnv.allOk .ONNX_TENSOR_ELEMENT_DATA_TYPE_FLOAT16) ⟨1920, 1080⟩ .empty).outputBuffer = some d → d.ByteWidth = 4 * (1920 * 1080 * 3 * 2) :=
  ⟨⟨le_refl _, le_refl _⟩, by decide,
    (Initialize_buffer_sizes (InitEnv.allOk .ONNX_TENSOR_ELEMENT_DATA_TYPE_FLOAT16) 1920 1080 .empty (le_refl _) (le_refl _)).2.1⟩

/-- C3: for every input texture of width `W` and height `H` (twice either fits a `LONG`,
as it does for every Direct3D 11 texture), a run of `Initialize` that returns `true` has
stored through `output` a texture of width exactly `2 * W` and height exactly `2 * H`; the
backend's view `_outputTexUav` is a view of that texture, and after any `Evaluate`,
whatever the outcome of its calls, it still is: the dimensions are unchanged. -/
theorem Initialize_output_texture_is_twice_the_input (env : InitEnv) (W H : Nat)
    (b0 : TensorRTInferenceBackend) (hW : 2 * W < 2147483648) (hH : 2 * H < 2147483648)
    (hret : (TensorRTInferenceBackend.Initialize env ⟨W, H⟩ b0).ret = true) :
    ∃ tex, (TensorRTInferenceBackend.Initialize env ⟨W, H⟩ b0).output = some tex
      ∧ tex.Width = 2 * W ∧ tex.Height = 2 * H
      ∧ (TensorRTInferenceBackend.Initialize env ⟨W, H⟩ b0).backend._outputTexUav = some (.ofTexture tex)
      ∧ ∀ eenv d, (TensorRTInferenceBackend.Evaluate eenv (TensorRTInferenceBackend.Initialize env ⟨W, H⟩ b0).backend d).backend._outputTexUav
          = some (.ofTexture tex) := by
  obtain ⟨deviceId, -, -, hout, hb⟩ := Initialize_of_ret_true env ⟨W, H⟩ b0 hret
  have hsz := outputTextureOf_size W H hW hH
  refine ⟨outputTextureOf ⟨W, H⟩, hout, hsz.1, hsz.2, ?_, ?_⟩
  · rw [hb]
    rfl
  · intro eenv d
    rw [Evaluate_backend, hb]
    rfl

/-- C3 at 1920x1080: the output texture is 3840x2160. -/
theorem Initialize_output_texture_is_twice_the_input_witness :
    (2 * 1920 < 2147483648 ∧ 2 * 1080 < 2147483648 ∧ (TensorRTInferenceBackend.Initialize (InitEnv.allOk .ONNX_TENSOR_ELEMENT_DATA_TYPE_FLOAT16) ⟨1920, 1080⟩ .empty).ret = true)
    ∧ ∃ tex, (TensorRTInferenceBackend.Initialize (InitEnv.allOk .ONNX_TENSOR_ELEMENT_DATA_TYPE_FLOAT16) ⟨1920, 1080⟩ .empty).output = some tex
      ∧ tex.Width = 2 * 1920 ∧ tex.Height = 2 * 1080
      ∧ (TensorRTInferenceBackend.Initialize (InitEnv.allOk .ONNX_TENSOR_ELEMENT_DATA_TYPE_FLOAT16) ⟨1920, 1080⟩ .empty).backend._outputTexUav = some (.ofTexture tex)
      ∧ ∀ eenv d, (TensorRTInferenceBackend.Evaluate eenv (TensorRTInferenceBackend.Initialize (InitEnv.allOk .ONNX_TENSOR_ELEMENT_DATA_TYPE_FLOAT16) ⟨1920, 1080⟩ .empty).backend d).backend._outputTexUav = some (.ofTexture tex) :=
  ⟨⟨by decide, by decide, by decide⟩,
    Initialize_output_texture_is_twice_the_input (InitEnv.allOk .ONNX_TENSOR_ELEMENT_DATA_TYPE_FLOAT16) 1920 1080 .empty
      (by decide) (by decide) (by decide)⟩

/-! ## Dispatch grid sizes -/

/-- C4: for every frame of width `W ≥ 1` and height `H ≥ 1` whose doubled extents fit a
`LONG` (no 32-bit overflow), every run of `Initialize` that gets past lines 251-258 has
set `_texToTensorDispatchCount` to `(⌈W/16⌉, ⌈H/16⌉)` and `_tensorToTexDispatchCount` to
`(⌈2W/8⌉, ⌈2H/8⌉)`. Each count `n` for an extent `d` and block size `b` is the least `n`
with `d ≤ n * b`, so the groups cover every pixel, and `(n - 1) * b < d`, so no whole
group lies outside the image. -/
theorem Initialize_dispatch_counts_are_ceilings (env : InitEnv) (W H : Nat)
    (b0 : TensorRTInferenceBackend) (hW1 : 1 ≤ W) (hH1 : 1 ≤ H)
    (hW : 2 * W < 2147483648) (hH : 2 * H < 2147483648)
    (hreach : (TensorRTInferenceBackend.Initialize env ⟨W, H⟩ b0).exit.pastDispatchCounts = true) :
    (TensorRTInferenceBackend.Initialize env ⟨W, H⟩ b0).backend._texToTensorDispatchCount = ((W + 15) / 16, (H + 15) / 16)
    ∧ (TensorRTInferenceBackend.Initialize env ⟨W, H⟩ b0).backend._tensorToTexDispatchCount
        = ((2 * W + 7) / 8, (2 * H + 7) / 8)
    ∧ IsCeilDiv (TensorRTInferenceBackend.Initialize env ⟨W, H⟩ b0).backend._texToTensorDispatchCount.1 W 16
    ∧ IsCeilDiv (TensorRTInferenceBackend.Initialize env ⟨W, H⟩ b0).backend._texToTensorDispatchCount.2 H 16
    ∧ IsCeilDiv (TensorRTInferenceBackend.Initialize env ⟨W, H⟩ b0).backend._tensorToTexDispatchCount.1 (2 * W) 8
    ∧ IsCeilDiv (TensorRTInferenceBackend.Initialize env ⟨W, H⟩ b0).backend._tensorToTexDispatchCount.2 (2 * H) 8 := by
  obtain ⟨-, -, -, -, hdisp, -⟩ := Initialize_on_every_path env ⟨W, H⟩ b0 _ rfl
  obtain ⟨-, h1, h2⟩ := hdisp hreach
  have hc := dispatchCounts_in_range W H hW hH
  rw [h1, h2, hc.1, hc.2]
  refine ⟨rfl, rfl, ?_, ?_, ?_, ?_⟩ <;>
    refine ⟨?_, ?_, ?_⟩ <;> simp only [] <;> (try intro m hm) <;> omega

/-- C4 at 1920x1080: the counts are 120x68 and 480x270. -/
theorem Initialize_dispatch_counts_are_ceilings_witness :
    (1 ≤ 1920 ∧ 1 ≤ 1080 ∧ 2 * 1920 < 2147483648 ∧ 2 * 1080 < 2147483648
      ∧ (TensorRTInferenceBackend.Initialize (InitEnv.allOk .ONNX_TENSOR_ELEMENT_DATA_TYPE_FLOAT16) ⟨1920, 1080⟩ .empty).exit.pastDispatchCounts = true)
    ∧ (TensorRTInferenceBackend.Initialize (InitEnv.allOk .ONNX_TENSOR_ELEMENT_DATA_TYPE_FLOAT16) ⟨1920, 1080⟩ .empty).backend._texToTensorDispatchCount = (120, 68)
    ∧ (TensorRTInferenceBackend.Initialize (InitEnv.allOk .ONNX_TENSOR_ELEMENT_DATA_TYPE_FLOAT16) ⟨1920, 1080⟩ .empty).backend._tensorToTexDispatchCount = (480, 270) :=
  have h := Initialize_dispatch_counts_are_ceilings (InitEnv.allOk .ONNX_TENSOR_ELEMENT_DATA_TYPE_FLOAT16) 1920 1080 .empty
    (by decide) (by decide) (by decide) (by decide) (by decide)
  ⟨⟨by decide, by decide, by decide, by decide, by decide⟩, h.1, h.2.1⟩

/-! ## Ownership of the shared buffers -/

/-- C5, evaluated where it fails: on a backend initialised for 1920x1080 in half
precision, a frame in which the map and both pointer queries succeed and `_session.Run`
throws leaves through line 340 with both shared buffers still mapped; the next frame then
dispatches the texture-to-tensor kernel while they are mapped. Two frames in which every
call succeeds never dispatch while the buffers are mapped. -/
theorem Evaluate_returns_with_buffers_mapped_when_Run_throws :
    (TensorRTInferenceBackend.Evaluate EvalEnv.runThrows backend1080p .initial).exit = .ortException
    ∧ (TensorRTInferenceBackend.Evaluate EvalEnv.runThrows backend1080p .initial).device.mapped = true
    ∧ dispatchedWhileMapped false
        (EvaluateFrames [EvalEnv.runThrows, EvalEnv.mapFails] backend1080p .initial).2 = true
    ∧ dispatchedWhileMapped false
        (EvaluateFrames [EvalEnv.allOk, EvalEnv.allOk] backend1080p .initial).2 = false := by
  decide

/-! ## Frame-transient failures -/

/-- C6: for every `Evaluate` call on an initialised backend in which the map fails, or a
mapped-pointer query fails, or the inference run raises an exception, or the unmap fails,
`Evaluate` returns early: its trace holds no dispatch of the tensor-to-texture kernel, the
output texture has been written as many times as before the call (it keeps the previous
frame's content), and every field of the backend is as before the call. -/
theorem Evaluate_failure_leaves_output_texture (ienv : InitEnv) (input : D3D11_TEXTURE2D_DESC)
    (b0 : TensorRTInferenceBackend) (env : EvalEnv) (d : DeviceState)
    (hinit : (TensorRTInferenceBackend.Initialize ienv input b0).ret = true) (hf : env.fails) :
    (TensorRTInferenceBackend.Evaluate env (TensorRTInferenceBackend.Initialize ienv input b0).backend d).exit ≠ .completed
    ∧ (∀ x y z, EvalEvent.Dispatch (some .TensorToTextureCS) x y z
        ∉ (TensorRTInferenceBackend.Evaluate env (TensorRTInferenceBackend.Initialize ienv input b0).backend d).trace)
    ∧ (TensorRTInferenceBackend.Evaluate env (TensorRTInferenceBackend.Initialize ienv input b0).backend d).device.outputTexWrites = d.outputTexWrites
    ∧ (TensorRTInferenceBackend.Evaluate env (TensorRTInferenceBackend.Initialize ienv input b0).backend d).backend = (TensorRTInferenceBackend.Initialize ienv input b0).backend := by
  obtain ⟨deviceId, -, -, -, hb⟩ := Initialize_of_ret_true ienv input b0 hinit
  have hsh : (TensorRTInferenceBackend.Initialize ienv input b0).backend._texToTensorShader = some .TextureToTensorCS := by
    rw [hb]
    rfl
  obtain ⟨h1, h2, h3⟩ := Evaluate_of_fails env _ d hsh hf
  exact ⟨h1, h2, h3, Evaluate_backend _ _ _⟩

/-- C6 for a frame whose map fails, on a backend initialised for 1920x1080. -/
theorem Evaluate_failure_leaves_output_texture_witness :
    ((TensorRTInferenceBackend.Initialize (InitEnv.allOk .ONNX_TENSOR_ELEMENT_DATA_TYPE_FLOAT16) ⟨1920, 1080⟩ .empty).ret = true ∧ EvalEnv.mapFails.fails)
    ∧ (TensorRTInferenceBackend.Evaluate EvalEnv.mapFails (TensorRTInferenceBackend.Initialize (InitEnv.allOk .ONNX_TENSOR_ELEMENT_DATA_TYPE_FLOAT16) ⟨1920, 1080⟩ .empty).backend .initial).exit ≠ .completed
    ∧ (TensorRTInferenceBackend.Evaluate EvalEnv.mapFails (TensorRTInferenceBackend.Initialize (InitEnv.allOk .ONNX_TENSOR_ELEMENT_DATA_TYPE_FLOAT16) ⟨1920, 1080⟩ .empty).backend .initial).device.outputTexWrites = 0 :=
  have h := Evaluate_failure_leaves_output_texture (InitEnv.allOk .ONNX_TENSOR_ELEMENT_DATA_TYPE_FLOAT16) ⟨1920, 1080⟩ .empty
    EvalEnv.mapFails .initial (by decide) (Or.inl rfl)
  ⟨⟨by decide, Or.inl rfl⟩, h.1, h.2.2.1⟩

/-! ## The element type check -/

/-- C7: for every element type `t` that the model declares for its first input, when all
earlier steps succeed (device found, capability at least 6, device set, session built),
`Initialize` gets past the type check of line 137 if and only if `t` is half-precision or
single-precision float; for every other `t` it returns `false` through line 138; and when
it gets past the check, `_isFloat16` is `true` exactly when `t` is half-precision float. -/
theorem Initialize_accepts_half_and_single_precision_only (env : InitEnv)
    (input : D3D11_TEXTURE2D_DESC) (b0 : TensorRTInferenceBackend) (deviceId major minor : Int)
    (hdev : env.getDevice = some deviceId) (hmaj : env.major = some major)
    (hmin : env.minor = some minor) (h6 : 6 ≤ major) (hset : env.setDevice = true)
    (hort : env.ort = .ok) :
    ((TensorRTInferenceBackend.Initialize env input b0).exit.pastTypeCheck = true
      ↔ env.inputType = .ONNX_TENSOR_ELEMENT_DATA_TYPE_FLOAT16 ∨ env.inputType = .ONNX_TENSOR_ELEMENT_DATA_TYPE_FLOAT)
    ∧ (¬ (env.inputType = .ONNX_TENSOR_ELEMENT_DATA_TYPE_FLOAT16 ∨ env.inputType = .ONNX_TENSOR_ELEMENT_DATA_TYPE_FLOAT) →
        (TensorRTInferenceBackend.Initialize env input b0).ret = false ∧ (TensorRTInferenceBackend.Initialize env input b0).exit = .elementType)
    ∧ ((TensorRTInferenceBackend.Initialize env input b0).exit.pastTypeCheck = true →
        ((TensorRTInferenceBackend.Initialize env input b0).backend._isFloat16 = true ↔ env.inputType = .ONNX_TENSOR_ELEMENT_DATA_TYPE_FLOAT16)) := by
  obtain ⟨-, -, -, -, -, -, -, hpast, helem, hprog, -⟩ :=
    Initialize_on_every_path env input b0 _ rfl
  have hor := hprog ⟨deviceId, major, minor, hdev, hmaj, hmin, h6⟩ hset hort
  refine ⟨⟨fun h => (hpast h).1, ?_⟩, ?_, ?_⟩
  · intro ht
    rcases hor with h | h
    · exact absurd ht (helem h).2
    · exact h
  · intro hn
    rcases hor with h | h
    · exact ⟨(helem h).1, h⟩
    · exact absurd (hpast h).1 hn
  · intro h
    rw [(hpast h).2]
    simp

/-- C7 for a double-precision model: `Initialize` returns `false` through line 138. -/
theorem Initialize_accepts_half_and_single_precision_only_witness :
    ((InitEnv.allOk .ONNX_TENSOR_ELEMENT_DATA_TYPE_DOUBLE).getDevice = some 0 ∧ (InitEnv.allOk .ONNX_TENSOR_ELEMENT_DATA_TYPE_DOUBLE).major = some 8 ∧ (InitEnv.allOk .ONNX_TENSOR_ELEMENT_DATA_TYPE_DOUBLE).minor = some 6 ∧ (6 : Int) ≤ 8
      ∧ (InitEnv.allOk .ONNX_TENSOR_ELEMENT_DATA_TYPE_DOUBLE).setDevice = true ∧ (InitEnv.allOk .ONNX_TENSOR_ELEMENT_DATA_TYPE_DOUBLE).ort = .ok)
    ∧ (TensorRTInferenceBackend.Initialize (InitEnv.allOk .ONNX_TENSOR_ELEMENT_DATA_TYPE_DOUBLE) ⟨1920, 1080⟩ .empty).ret = false
    ∧ (TensorRTInferenceBackend.Initialize (InitEnv.allOk .ONNX_TENSOR_ELEMENT_DATA_TYPE_DOUBLE) ⟨1920, 1080⟩ .empty).exit = .elementType :=
  ⟨⟨rfl, rfl, rfl, by decide, rfl, rfl⟩,
    (Initialize_accepts_half_and_single_precision_only (InitEnv.allOk .ONNX_TENSOR_ELEMENT_DATA_TYPE_DOUBLE) ⟨1920, 1080⟩ .empty 0 8 6
      rfl rfl rfl (by decide) rfl rfl).2.1 (by decide)⟩

/-! ## Failures of Initialize -/

/-- C8: in every run of `Initialize` in which the creation of a GPU resource fails (the
output texture, the input or the output buffer, the input-buffer unordered-access view,
the output-buffer shader-resource view, the output-texture unordered-access view, either
compute shader, or either interop registration), `Initialize` returns `false`. -/
theorem Initialize_fails_when_a_resource_fails (env : InitEnv) (input : D3D11_TEXTURE2D_DESC)
    (b0 : TensorRTInferenceBackend) (h : env.resourceFails) :
    (TensorRTInferenceBackend.Initialize env input b0).ret = false := by
  rw [Initialize_ret_eq_succeeds]
  unfold InitEnv.resourceFails at h
  unfold InitEnv.succeeds
  rcases h with h | h | h | h | h | h | h | h | h | h <;> simp [h]

/-- C8 when the output texture cannot be created. -/
theorem Initialize_fails_when_a_resource_fails_witness :
    InitEnv.textureFails.resourceFails
    ∧ (TensorRTInferenceBackend.Initialize InitEnv.textureFails ⟨1920, 1080⟩ .empty).ret = false :=
  ⟨Or.inl rfl, Initialize_fails_when_a_resource_fails InitEnv.textureFails ⟨1920, 1080⟩ .empty
    (Or.inl rfl)⟩

/-- C9, as stated, fails: when everything succeeds but the creation of the
tensor-to-texture shader, `Initialize` returns `false` on an empty backend and leaves in it
the session, the three views and the texture-to-tensor shader it created. -/
theorem Initialize_keeps_objects_when_second_shader_fails :
    (TensorRTInferenceBackend.Initialize InitEnv.secondShaderFails ⟨1920, 1080⟩ .empty).ret = false
    ∧ TensorRTInferenceBackend.empty._session = none
    ∧ (TensorRTInferenceBackend.Initialize InitEnv.secondShaderFails ⟨1920, 1080⟩ .empty).backend._session ≠ none
    ∧ (TensorRTInferenceBackend.Initialize InitEnv.secondShaderFails ⟨1920, 1080⟩ .empty).backend._inputBufferUav ≠ none
    ∧ (TensorRTInferenceBackend.Initialize InitEnv.secondShaderFails ⟨1920, 1080⟩ .empty).backend._outputBufferSrv ≠ none
    ∧ (TensorRTInferenceBackend.Initialize InitEnv.secondShaderFails ⟨1920, 1080⟩ .empty).backend._outputTexUav ≠ none
    ∧ (TensorRTInferenceBackend.Initialize InitEnv.secondShaderFails ⟨1920, 1080⟩ .empty).backend._texToTensorShader
        = some .TextureToTensorCS
    ∧ (TensorRTInferenceBackend.Initialize InitEnv.secondShaderFails ⟨1920, 1080⟩ .empty).backend
        ≠ TensorRTInferenceBackend.empty := by
  decide

/-- C9, amended: for every run of `Initialize` that returns `false`, at the moment it
returns the backend holds none of the device objects whose creating step lies at or after
the failing step, and still holds every object created before it, since `Initialize`
releases nothing. In detail: the run left through one of the sixteen failing return
statements; a return from the device gate (device lookup, capability queries, capability
below 6, `cudaSetDevice`) leaves every field as before the call; a return from the `catch`
of line 130 leaves every field as before the call except `_env` and `_session`, which are
set when the exception came after their assignment; each later handle (memory info,
input-buffer view, output-buffer view, output-texture view, texture-to-tensor shader,
tensor-to-texture shader, input-buffer registration) is as before the call when the run
returns at or before its creating step, and is the object created in this run when the
run returns later; the output-buffer registration handle is as before the call. -/
theorem Initialize_failure_state (env : InitEnv) (input : D3D11_TEXTURE2D_DESC)
    (b0 : TensorRTInferenceBackend) (hret : (TensorRTInferenceBackend.Initialize env input b0).ret = false) :
    (TensorRTInferenceBackend.Initialize env input b0).exit.step ≤ 15
    ∧ ((TensorRTInferenceBackend.Initialize env input b0).exit.inDeviceGate = true → (TensorRTInferenceBackend.Initialize env input b0).backend = b0)
    ∧ ((TensorRTInferenceBackend.Initialize env input b0).exit.step ≤ 4 → (TensorRTInferenceBackend.Initialize env input b0).backend = b0)
    ∧ ((TensorRTInferenceBackend.Initialize env input b0).exit.step ≤ 5 → (TensorRTInferenceBackend.Initialize env input b0).backend._cudaMemInfo = b0._cudaMemInfo)
    ∧ ((TensorRTInferenceBackend.Initialize env input b0).exit.step ≤ 9 → (TensorRTInferenceBackend.Initialize env input b0).backend._inputBufferUav = b0._inputBufferUav)
    ∧ ((TensorRTInferenceBackend.Initialize env input b0).exit.step ≤ 10 → (TensorRTInferenceBackend.Initialize env input b0).backend._outputBufferSrv = b0._outputBufferSrv)
    ∧ ((TensorRTInferenceBackend.Initialize env input b0).exit.step ≤ 11 → (TensorRTInferenceBackend.Initialize env input b0).backend._outputTexUav = b0._outputTexUav)
    ∧ ((TensorRTInferenceBackend.Initialize env input b0).exit.step ≤ 12 → (TensorRTInferenceBackend.Initialize env input b0).backend._texToTensorShader = b0._texToTensorShader)
    ∧ ((TensorRTInferenceBackend.Initialize env input b0).exit.step ≤ 13 → (TensorRTInferenceBackend.Initialize env input b0).backend._tensorToTexShader = b0._tensorToTexShader)
    ∧ ((TensorRTInferenceBackend.Initialize env input b0).exit.step ≤ 14 → (TensorRTInferenceBackend.Initialize env input b0).backend._inputBufferCuda = b0._inputBufferCuda)
    ∧ (TensorRTInferenceBackend.Initialize env input b0).backend._outputBufferCuda = b0._outputBufferCuda
    ∧ ((TensorRTInferenceBackend.Initialize env input b0).exit.step = 5 →
      (env.ort = .envThrows → (TensorRTInferenceBackend.Initialize env input b0).backend = b0)
      ∧ (env.ort = .optionsThrow ∨ env.ort = .sessionThrows →
          (TensorRTInferenceBackend.Initialize env input b0).backend = { b0 with _env := true })
      ∧ (env.ort = .memoryInfoThrows →
          (TensorRTInferenceBackend.Initialize env input b0).backend
            = { b0 with
                _env := true
                _session := env.getDevice.map fun deviceId => ⟨env.inputType, deviceId⟩ })
      ∧ env.ort ≠ .ok)
    ∧ (6 ≤ (TensorRTInferenceBackend.Initialize env input b0).exit.step →
      (TensorRTInferenceBackend.Initialize env input b0).backend._env = true
      ∧ env.getDevice.isSome = true
      ∧ (TensorRTInferenceBackend.Initialize env input b0).backend._session
          = env.getDevice.map (fun deviceId => ⟨env.inputType, deviceId⟩)
      ∧ (TensorRTInferenceBackend.Initialize env input b0).backend._cudaMemInfo = env.getDevice)
    ∧ (10 ≤ (TensorRTInferenceBackend.Initialize env input b0).exit.step →
      (TensorRTInferenceBackend.Initialize env input b0).backend._inputBufferUav
        = some (.ofBuffer
            ⟨viewFormat (decide (env.inputType = .ONNX_TENSOR_ELEMENT_DATA_TYPE_FLOAT16)),
             pixelCount (inputSizeOf input) (decide (env.inputType = .ONNX_TENSOR_ELEMENT_DATA_TYPE_FLOAT16)) * 3 % 4294967296,
             ⟨inputByteWidth (inputSizeOf input) (decide (env.inputType = .ONNX_TENSOR_ELEMENT_DATA_TYPE_FLOAT16)),
                D3D11_BIND_UNORDERED_ACCESS⟩⟩))
    ∧ (11 ≤ (TensorRTInferenceBackend.Initialize env input b0).exit.step →
      (TensorRTInferenceBackend.Initialize env input b0).backend._outputBufferSrv
        = some (.ofBuffer
            ⟨viewFormat (decide (env.inputType = .ONNX_TENSOR_ELEMENT_DATA_TYPE_FLOAT16)),
             pixelCount (inputSizeOf input) (decide (env.inputType = .ONNX_TENSOR_ELEMENT_DATA_TYPE_FLOAT16))
               * 4 % 4294967296 * 3 % 4294967296,
             ⟨outputByteWidth (inputSizeOf input) (decide (env.inputType = .ONNX_TENSOR_ELEMENT_DATA_TYPE_FLOAT16)),
                D3D11_BIND_SHADER_RESOURCE⟩⟩))
    ∧ (12 ≤ (TensorRTInferenceBackend.Initialize env input b0).exit.step →
      (TensorRTInferenceBackend.Initialize env input b0).backend._outputTexUav = some (.ofTexture (outputTextureOf input)))
    ∧ (13 ≤ (TensorRTInferenceBackend.Initialize env input b0).exit.step →
      (TensorRTInferenceBackend.Initialize env input b0).backend._texToTensorShader = some .TextureToTensorCS)
    ∧ (14 ≤ (TensorRTInferenceBackend.Initialize env input b0).exit.step →
      (TensorRTInferenceBackend.Initialize env input b0).backend._tensorToTexShader = some .TensorToTextureCS)
    ∧ (15 ≤ (TensorRTInferenceBackend.Initialize env input b0).exit.step →
      (TensorRTInferenceBackend.Initialize env input b0).backend._inputBufferCuda
        = some ⟨inputByteWidth (inputSizeOf input) (decide (env.inputType = .ONNX_TENSOR_ELEMENT_DATA_TYPE_FLOAT16)),
                D3D11_BIND_UNORDERED_ACCESS⟩) := by
  obtain ⟨-, -, -, -, -, hgate, -, -, -, -, hstep, h5, h9, h10, h11, h12, h13, h14, h15⟩ :=
    Initialize_on_every_path env input b0 _ rfl
  have hkept := Initialize_keeps_what_it_created env input b0 _ rfl
  have hle := hstep.1 hret
  refine ⟨hle, hgate, ?_, h5, h9, h10, h11, h12, h13, h14, h15 hle, hkept⟩
  intro h4
  apply hgate
  revert h4
  cases (TensorRTInferenceBackend.Initialize env input b0).exit <;> simp [InitExit.step, InitExit.inDeviceGate]

/-- C9, amended, when everything succeeds but the creation of the tensor-to-texture
shader, on an empty backend: the run returns `false` from line 246; the session, the
memory info, the three views and the texture-to-tensor shader it created are in the
backend, and the tensor-to-texture shader and both registrations are absent. -/
theorem Initialize_failure_state_witness :
    (TensorRTInferenceBackend.Initialize InitEnv.secondShaderFails ⟨1920, 1080⟩ .empty).ret = false
    ∧ (TensorRTInferenceBackend.Initialize InitEnv.secondShaderFails ⟨1920, 1080⟩ .empty).exit.step = 13
    ∧ (TensorRTInferenceBackend.Initialize InitEnv.secondShaderFails ⟨1920, 1080⟩ .empty).backend._session = some ⟨.ONNX_TENSOR_ELEMENT_DATA_TYPE_FLOAT16, 0⟩
    ∧ (TensorRTInferenceBackend.Initialize InitEnv.secondShaderFails ⟨1920, 1080⟩ .empty).backend._cudaMemInfo = some 0
    ∧ (TensorRTInferenceBackend.Initialize InitEnv.secondShaderFails ⟨1920, 1080⟩ .empty).backend._inputBufferUav
        = some (.ofBuffer ⟨.DXGI_FORMAT_R16_FLOAT, 6220800,
            ⟨12441600, D3D11_BIND_UNORDERED_ACCESS⟩⟩)
    ∧ (TensorRTInferenceBackend.Initialize InitEnv.secondShaderFails ⟨1920, 1080⟩ .empty).backend._outputBufferSrv
        = some (.ofBuffer ⟨.DXGI_FORMAT_R16_FLOAT, 24883200,
            ⟨49766400, D3D11_BIND_SHADER_RESOURCE⟩⟩)
    ∧ (TensorRTInferenceBackend.Initialize InitEnv.secondShaderFails ⟨1920, 1080⟩ .empty).backend._outputTexUav
        = some (.ofTexture ⟨.DXGI_FORMAT_R8G8B8A8_UNORM, 3840, 2160,
            D3D11_BIND_SHADER_RESOURCE ||| D3D11_BIND_UNORDERED_ACCESS⟩)
    ∧ (TensorRTInferenceBackend.Initialize InitEnv.secondShaderFails ⟨1920, 1080⟩ .empty).backend._texToTensorShader = some .TextureToTensorCS
    ∧ (TensorRTInferenceBackend.Initialize InitEnv.secondShaderFails ⟨1920, 1080⟩ .empty).backend._tensorToTexShader = none
    ∧ (TensorRTInferenceBackend.Initialize InitEnv.secondShaderFails ⟨1920, 1080⟩ .empty).backend._inputBufferCuda = none
    ∧ (TensorRTInferenceBackend.Initialize InitEnv.secondShaderFails ⟨1920, 1080⟩ .empty).backend._outputBufferCuda = none :=
  have h := Initialize_failure_state InitEnv.secondShaderFails ⟨1920, 1080⟩ .empty
    (by decide)
  ⟨by decide, by decide,
    (h.2.2.2.2.2.2.2.2.2.2.2.2.1 (by decide)).2.2.1,
    (h.2.2.2.2.2.2.2.2.2.2.2.2.1 (by decide)).2.2.2,
    h.2.2.2.2.2.2.2.2.2.2.2.2.2.1 (by decide),
    h.2.2.2.2.2.2.2.2.2.2.2.2.2.2.1 (by decide),
    h.2.2.2.2.2.2.2.2.2.2.2.2.2.2.2.1 (by decide),
    h.2.2.2.2.2.2.2.2.2.2.2.2.2.2.2.2.1 (by decide),
    h.2.2.2.2.2.2.2.2.1 (by decide),
    h.2.2.2.2.2.2.2.2.2.1 (by decide),
    h.2.2.2.2.2.2.2.2.2.2.1⟩

/-! ## The per-frame sequence -/

/-- The padded pixel count is the pixel count or one more, and is even in half
precision. -/
theorem paddedPixelCount_bounds (W H : Nat) (f16 : Bool) :
    W * H ≤ paddedPixelCount W H f16
    ∧ paddedPixelCount W H f16 * elementBytes f16 ≤ W * H * 4
    ∧ 4 ∣ paddedPixelCount W H f16 * 3 * elementBytes f16 := by
  unfold paddedPixelCount elementBytes
  generalize W * H = P
  cases f16
  · simp only [Bool.false_eq_true, if_false]
    omega
  · simp only [if_true]
    omega

/-- For a frame with `W * H * 48 < 2 ^ 32` no step of lines 163-213 overflows: the pixel
count, the two byte widths and the two element counts are the mathematical products. -/
theorem sizes_of_small_frame (W H : Nat) (f16 : Bool) (hW : 1 ≤ W) (hH : 1 ≤ H)
    (hsmall : W * H * 48 < 4294967296) :
    pixelCount (inputSizeOf ⟨W, H⟩) f16 = paddedPixelCount W H f16
    ∧ inputByteWidth (inputSizeOf ⟨W, H⟩) f16
        = paddedPixelCount W H f16 * 3 * elementBytes f16
    ∧ outputByteWidth (inputSizeOf ⟨W, H⟩) f16
        = 4 * (paddedPixelCount W H f16 * 3 * elementBytes f16)
    ∧ pixelCount (inputSizeOf ⟨W, H⟩) f16 * 3 % 4294967296 = paddedPixelCount W H f16 * 3
    ∧ pixelCount (inputSizeOf ⟨W, H⟩) f16 * 4 % 4294967296 * 3 % 4294967296
        = paddedPixelCount W H f16 * 12 := by
  have hWP : W ≤ W * H := Nat.le_mul_of_pos_right W hH
  have hHP : H ≤ W * H := Nat.le_mul_of_pos_left H hW
  have hcx : wrapLong (W : Int) = W := wrapLong_of_lt _ (by omega) (by omega)
  have hcy : wrapLong (H : Int) = H := wrapLong_of_lt _ (by omega) (by omega)
  have hprod : wrapLong (((W * H : Nat) : Int)) = ((W * H : Nat) : Int) :=
    wrapLong_of_lt _ (by omega) (by omega)
  have hu : toUInt32 (((W * H : Nat) : Int)) = W * H := toUInt32_natCast _ (by omega)
  obtain ⟨hlo, hhi, -⟩ := paddedPixelCount_bounds W H f16
  have hpc : pixelCount (inputSizeOf ⟨W, H⟩) f16 = paddedPixelCount W H f16 := by
    unfold pixelCount inputSizeOf paddedPixelCount
    simp only [hcx, hcy]
    rw [← Nat.cast_mul, hprod, hu]
    cases f16
    · simp
    · simp
      omega
  have he : elementBytes f16 = 2 ∨ elementBytes f16 = 4 := by
    unfold elementBytes
    cases f16 <;> simp
  unfold outputByteWidth inputByteWidth
  rw [hpc]
  have hif : (if f16 = true then 2 else 4) = elementBytes f16 := rfl
  rw [hif]
  generalize paddedPixelCount W H f16 = P at hlo hhi ⊢
  generalize elementBytes f16 = e at hhi he ⊢
  rcases he with he | he <;> subst he <;> omega

/-- The buffers and the views over them, as they stand in every run of `Initialize` that
got past the creation of the view: a run whose return statement lies after line 204 holds
the input buffer and its unordered-access view, one whose return statement lies after
line 220 holds the output buffer and its shader-resource view. -/
theorem Initialize_views_on_every_path (env : InitEnv)
    (input : D3D11_TEXTURE2D_DESC) (b0 : TensorRTInferenceBackend) :
    ∀ r, TensorRTInferenceBackend.Initialize env input b0 = r →
      (10 ≤ r.exit.step →
        r.inputBuffer
          = some ⟨inputByteWidth (inputSizeOf input) (decide (env.inputType = .ONNX_TENSOR_ELEMENT_DATA_TYPE_FLOAT16)),
                  D3D11_BIND_UNORDERED_ACCESS⟩
        ∧ r.backend._inputBufferUav
          = some (.ofBuffer
              ⟨viewFormat (decide (env.inputType = .ONNX_TENSOR_ELEMENT_DATA_TYPE_FLOAT16)),
               pixelCount (inputSizeOf input) (decide (env.inputType = .ONNX_TENSOR_ELEMENT_DATA_TYPE_FLOAT16))
                 * 3 % 4294967296,
               ⟨inputByteWidth (inputSizeOf input) (decide (env.inputType = .ONNX_TENSOR_ELEMENT_DATA_TYPE_FLOAT16)),
                D3D11_BIND_UNORDERED_ACCESS⟩⟩))
      ∧ (11 ≤ r.exit.step →
        r.outputBuffer
          = some ⟨outputByteWidth (inputSizeOf input) (decide (env.inputType = .ONNX_TENSOR_ELEMENT_DATA_TYPE_FLOAT16)),
                  D3D11_BIND_SHADER_RESOURCE⟩
        ∧ r.backend._outputBufferSrv
          = some (.ofBuffer
              ⟨viewFormat (decide (env.inputType = .ONNX_TENSOR_ELEMENT_DATA_TYPE_FLOAT16)),
               pixelCount (inputSizeOf input) (decide (env.inputType = .ONNX_TENSOR_ELEMENT_DATA_TYPE_FLOAT16))
                 * 4 % 4294967296 * 3 % 4294967296,
               ⟨outputByteWidth (inputSizeOf input) (decide (env.inputType = .ONNX_TENSOR_ELEMENT_DATA_TYPE_FLOAT16)),
                D3D11_BIND_SHADER_RESOURCE⟩⟩)) := by
  obtain ⟨gd, mj, mn, sd, ort, ty, ct, cib, cob, gs, gsm, ciu, cos, ctu, s1, s2, r1, r2⟩ := env
  intro r hr
  subst hr
  cases gd <;> try (simp [TensorRTInferenceBackend.Initialize, InitExit.step, inputSizeOf]; done)
  cases mj <;> try (simp [TensorRTInferenceBackend.Initialize, InitExit.step, inputSizeOf]; done)
  cases mn <;> try (simp [TensorRTInferenceBackend.Initialize, InitExit.step, inputSizeOf]; done)
  rename_i deviceId major minor
  by_cases hM : major < 6
  · simp [TensorRTInferenceBackend.Initialize, hM, InitExit.step, inputSizeOf]
  cases sd <;> try (simp [TensorRTInferenceBackend.Initialize, hM, InitExit.step, inputSizeOf]; done)
  cases ort <;> try (simp [TensorRTInferenceBackend.Initialize, hM, InitExit.step, inputSizeOf]; done)
  by_cases hty : ty ≠ .ONNX_TENSOR_ELEMENT_DATA_TYPE_FLOAT16
      ∧ ty ≠ .ONNX_TENSOR_ELEMENT_DATA_TYPE_FLOAT
  · simp [TensorRTInferenceBackend.Initialize, hM, hty, InitExit.step, inputSizeOf]
  cases cib <;> try (simp [TensorRTInferenceBackend.Initialize, hM, hty, InitExit.step, inputSizeOf]; done)
  cases cob <;> try (simp [TensorRTInferenceBackend.Initialize, hM, hty, InitExit.step, inputSizeOf]; done)
  cases ciu <;> try (simp [TensorRTInferenceBackend.Initialize, hM, hty, InitExit.step, inputSizeOf]; done)
  cases cos <;> try (simp [TensorRTInferenceBackend.Initialize, hM, hty, InitExit.step, inputSizeOf]; done)
  cases ct <;> try (simp [TensorRTInferenceBackend.Initialize, hM, hty, InitExit.step, inputSizeOf,
    DirectXHelper.CreateTexture2D]; done)
  cases ctu <;> try (simp [TensorRTInferenceBackend.Initialize, hM, hty, InitExit.step, inputSizeOf,
    DirectXHelper.CreateTexture2D]; done)
  cases s1 <;> try (simp [TensorRTInferenceBackend.Initialize, hM, hty, InitExit.step, inputSizeOf,
    DirectXHelper.CreateTexture2D]; done)
  cases s2 <;> try (simp [TensorRTInferenceBackend.Initialize, hM, hty, InitExit.step, inputSizeOf,
    DirectXHelper.CreateTexture2D]; done)
  cases r1 <;> try (simp [TensorRTInferenceBackend.Initialize, hM, hty, InitExit.step, inputSizeOf,
    DirectXHelper.CreateTexture2D]; done)
  cases r2 <;> simp [TensorRTInferenceBackend.Initialize, hM, hty, InitExit.step, inputSizeOf,
    DirectXHelper.CreateTexture2D]

/-- C11: for every frame of width `W ≥ 1` and height `H ≥ 1` with `W * H * 48 < 2 ^ 32`
and for either element format of byte width `e` (2 in half precision, 4 in single
precision), the `ByteWidth` that `Initialize` gives the input buffer is a multiple of 4
and at least `3 * H * W * e`, the bytes of the `[1, 3, H, W]` tensor that `Evaluate`
binds; the `ByteWidth` of the output buffer is a multiple of 4 and at least
`3 * (2 * H) * (2 * W) * e`, the bytes of the `[1, 3, 2H, 2W]` tensor; and in every run
that created a view (return statement after line 204 for the input-buffer view, after line
220 for the output-buffer view, as in every run that returns `true`), the view is a view
of that buffer and its `NumElements` times `e` equals the buffer's `ByteWidth`. A buffer
exists only for a half- or single-precision model. -/
theorem Initialize_buffers_hold_the_tensors (env : InitEnv) (W H : Nat)
    (b0 : TensorRTInferenceBackend) (hW : 1 ≤ W) (hH : 1 ≤ H)
    (hsmall : W * H * 48 < 4294967296) :
    (∀ d, (TensorRTInferenceBackend.Initialize env ⟨W, H⟩ b0).inputBuffer = some d →
      4 ∣ d.ByteWidth
      ∧ 3 * H * W * elementBytes (decide (env.inputType = .ONNX_TENSOR_ELEMENT_DATA_TYPE_FLOAT16)) ≤ d.ByteWidth)
    ∧ (∀ d, (TensorRTInferenceBackend.Initialize env ⟨W, H⟩ b0).outputBuffer = some d →
      4 ∣ d.ByteWidth
      ∧ 3 * (2 * H) * (2 * W) * elementBytes (decide (env.inputType = .ONNX_TENSOR_ELEMENT_DATA_TYPE_FLOAT16))
          ≤ d.ByteWidth)
    ∧ (10 ≤ (TensorRTInferenceBackend.Initialize env ⟨W, H⟩ b0).exit.step →
        ∃ v, (TensorRTInferenceBackend.Initialize env ⟨W, H⟩ b0).backend._inputBufferUav = some (.ofBuffer v)
          ∧ (TensorRTInferenceBackend.Initialize env ⟨W, H⟩ b0).inputBuffer = some v.buffer
          ∧ v.NumElements * elementBytes (decide (env.inputType = .ONNX_TENSOR_ELEMENT_DATA_TYPE_FLOAT16))
              = v.buffer.ByteWidth)
    ∧ (11 ≤ (TensorRTInferenceBackend.Initialize env ⟨W, H⟩ b0).exit.step →
        ∃ v, (TensorRTInferenceBackend.Initialize env ⟨W, H⟩ b0).backend._outputBufferSrv = some (.ofBuffer v)
          ∧ (TensorRTInferenceBackend.Initialize env ⟨W, H⟩ b0).outputBuffer = some v.buffer
          ∧ v.NumElements * elementBytes (decide (env.inputType = .ONNX_TENSOR_ELEMENT_DATA_TYPE_FLOAT16))
              = v.buffer.ByteWidth)
    ∧ ((TensorRTInferenceBackend.Initialize env ⟨W, H⟩ b0).ret = true → (TensorRTInferenceBackend.Initialize env ⟨W, H⟩ b0).exit.step = 16)
    ∧ ((TensorRTInferenceBackend.Initialize env ⟨W, H⟩ b0).inputBuffer.isSome = true →
        env.inputType = .ONNX_TENSOR_ELEMENT_DATA_TYPE_FLOAT16 ∨ env.inputType = .ONNX_TENSOR_ELEMENT_DATA_TYPE_FLOAT) := by
  obtain ⟨hin, hout, -, hty, -⟩ := Initialize_on_every_path env ⟨W, H⟩ b0 _ rfl
  obtain ⟨hv1, hv2⟩ := Initialize_views_on_every_path env ⟨W, H⟩ b0 _ rfl
  obtain ⟨-, hib, hob, hn1, hn2⟩ :=
    sizes_of_small_frame W H (decide (env.inputType = .ONNX_TENSOR_ELEMENT_DATA_TYPE_FLOAT16)) hW hH hsmall
  obtain ⟨hlo, -, hdvd⟩ := paddedPixelCount_bounds W H (decide (env.inputType = .ONNX_TENSOR_ELEMENT_DATA_TYPE_FLOAT16))
  have hin3 : 3 * H * W * elementBytes (decide (env.inputType = .ONNX_TENSOR_ELEMENT_DATA_TYPE_FLOAT16))
      ≤ paddedPixelCount W H (decide (env.inputType = .ONNX_TENSOR_ELEMENT_DATA_TYPE_FLOAT16)) * 3
          * elementBytes (decide (env.inputType = .ONNX_TENSOR_ELEMENT_DATA_TYPE_FLOAT16)) := by
    have h1 : 3 * H * W = W * H * 3 := by ring
    rw [h1]
    exact Nat.mul_le_mul_right _ (Nat.mul_le_mul_right _ hlo)
  have hout3 : 3 * (2 * H) * (2 * W) * elementBytes (decide (env.inputType = .ONNX_TENSOR_ELEMENT_DATA_TYPE_FLOAT16))
      ≤ 4 * (paddedPixelCount W H (decide (env.inputType = .ONNX_TENSOR_ELEMENT_DATA_TYPE_FLOAT16)) * 3
          * elementBytes (decide (env.inputType = .ONNX_TENSOR_ELEMENT_DATA_TYPE_FLOAT16))) := by
    have h1 : 3 * (2 * H) * (2 * W) * elementBytes (decide (env.inputType = .ONNX_TENSOR_ELEMENT_DATA_TYPE_FLOAT16))
        = 4 * (3 * H * W * elementBytes (decide (env.inputType = .ONNX_TENSOR_ELEMENT_DATA_TYPE_FLOAT16))) := by ring
    rw [h1]
    exact Nat.mul_le_mul_left _ hin3
  refine ⟨?_, ?_, ?_, ?_, ?_, hty⟩
  · intro d hd
    rw [hin d hd]
    show 4 ∣ inputByteWidth _ _ ∧ _ ≤ inputByteWidth _ _
    rw [hib]
    exact ⟨hdvd, hin3⟩
  · intro d hd
    rw [hout d hd]
    show 4 ∣ outputByteWidth _ _ ∧ _ ≤ outputByteWidth _ _
    rw [hob]
    exact ⟨dvd_mul_right 4 _, hout3⟩
  · intro h
    obtain ⟨hb, hu⟩ := hv1 h
    refine ⟨_, hu, hb, ?_⟩
    show pixelCount _ _ * 3 % 4294967296 * _ = inputByteWidth _ _
    rw [hn1, hib]
  · intro h
    obtain ⟨hb, hu⟩ := hv2 h
    refine ⟨_, hu, hb, ?_⟩
    show pixelCount _ _ * 4 % 4294967296 * 3 % 4294967296 * _ = outputByteWidth _ _
    rw [hn2, hob]
    ring
  · intro h
    obtain ⟨deviceId, -, hex, -⟩ := Initialize_of_ret_true env ⟨W, H⟩ b0 h
    rw [hex]
    rfl

/-- C11 at 1920x1080 in half precision: the input buffer has 12441600 bytes, a multiple
of 4 and exactly the bytes of the `[1, 3, 1080, 1920]` tensor. -/
theorem Initialize_buffers_hold_the_tensors_witness :
    (1 ≤ 1920 ∧ 1 ≤ 1080 ∧ 1920 * 1080 * 48 < 4294967296)
    ∧ (TensorRTInferenceBackend.Initialize (InitEnv.allOk .ONNX_TENSOR_ELEMENT_DATA_TYPE_FLOAT16) ⟨1920, 1080⟩ .empty).inputBuffer = some ⟨12441600, D3D11_BIND_UNORDERED_ACCESS⟩
    ∧ ∀ d, (TensorRTInferenceBackend.Initialize (InitEnv.allOk .ONNX_TENSOR_ELEMENT_DATA_TYPE_FLOAT16) ⟨1920, 1080⟩ .empty).inputBuffer = some d →
        4 ∣ d.ByteWidth
        ∧ 3 * 1080 * 1920 * elementBytes (decide
            (((InitEnv.allOk .ONNX_TENSOR_ELEMENT_DATA_TYPE_FLOAT16)).inputType = .ONNX_TENSOR_ELEMENT_DATA_TYPE_FLOAT16)) ≤ d.ByteWidth :=
  ⟨⟨by decide, by decide, by decide⟩, by decide,
    (Initialize_buffers_hold_the_tensors (InitEnv.allOk .ONNX_TENSOR_ELEMENT_DATA_TYPE_FLOAT16) 1920 1080 .empty
      (by decide) (by decide) (by decide)).1⟩

end Magpie.Core
